import Mathlib

/-!
Shallow embedding of the esp32-lcd1602 repository: an HD44780 character-LCD
driver over an I2C GPIO expander, in two variants:
  * `LcdI2c` — the library driver `Lcd` of `src/lcd_i2c_rs/src/lib.rs`;
  * `MainRs` — the `SimpleLcd` driver of `src/src/main.rs`.

Every driver operation is embedded as a computation in a small state monad
`M σ` over a device state `σ` together with an event trace and a count of bus
writes attempted so far.  The I2C bus is modelled by an oracle
`bus : Nat → Bool` giving the success of the k-th bus write.  Machine `u8`
values are modelled as `Nat`, reduced `% 256` where the Rust code stores or
transmits a `u8`.  Rust `panic!`/`unwrap`/`expect` aborts are modelled by the
`R.panic` outcome, recoverable `Err` returns by `R.err` carrying the source's
error message.
-/

/-- One observable event of a driver run: a bus write of a payload (list of
bytes) to a 7-bit I2C address, a blocking delay in microseconds, or a ghost
marker `sendByte value mode` recording the logical 8-bit transfer that a
`send` call performs (emitted at the top of `send`, before its two nibble
transactions). -/
inductive Ev where
  | wr : Nat → List Nat → Ev
  | delayUs : Nat → Ev
  | sendByte : Nat → Nat → Ev
deriving DecidableEq, Repr

/-- Run state: device state `dev`, the event trace `tr` (most recent event
first; see `St.traceOut`), and the number of bus writes attempted so far. -/
structure St (σ : Type) where
  dev : σ
  tr : List Ev
  nw : Nat
deriving DecidableEq, Repr

/-- The trace of a run in chronological order (oldest event first). -/
def St.traceOut {σ : Type} (s : St σ) : List Ev := s.tr.reverse

/-- Outcome of a driver computation: normal return, recoverable error
(Rust `Err`, message as in the source), or process abort (Rust panic). -/
inductive R (σ : Type) (α : Type) where
  | ok : α → St σ → R σ α
  | err : String → St σ → R σ α
  | panic : String → St σ → R σ α
deriving DecidableEq, Repr

/-- Driver computations: given the bus-success oracle and a start state,
produce an outcome. -/
def M (σ : Type) (α : Type) : Type := (Nat → Bool) → St σ → R σ α

/-- Return a pure value. -/
def mpure {σ α : Type} (a : α) : M σ α := fun _ s => R.ok a s

/-- Sequencing; errors and panics propagate (Rust `?` and unwinding). -/
def mbind {σ α β : Type} (m : M σ α) (f : α → M σ β) : M σ β :=
  fun bus s =>
    match m bus s with
    | R.ok a s' => f a bus s'
    | R.err e s' => R.err e s'
    | R.panic msg s' => R.panic msg s'

/-- Sequencing discarding the first result. -/
def mseq {σ α : Type} (m : M σ Unit) (k : M σ α) : M σ α :=
  mbind m (fun _ => k)

/-- Record an event on the trace. -/
def emit {σ : Type} (e : Ev) : M σ Unit :=
  fun _ s => R.ok () { s with tr := e :: s.tr }

/-- Read the device state. -/
def getDev {σ : Type} : M σ σ := fun _ s => R.ok s.dev s

/-- Update the device state. -/
def modifyDev {σ : Type} (f : σ → σ) : M σ Unit :=
  fun _ s => R.ok () { s with dev := f s.dev }

/-- Fail with a recoverable error (Rust `return Err(...)`). -/
def throwErr {σ α : Type} (msg : String) : M σ α := fun _ s => R.err msg s

/-- Abort the process (Rust panic via `unwrap`/`expect`/index out of bounds). -/
def abortPanic {σ α : Type} (msg : String) : M σ α := fun _ s => R.panic msg s

/-- Sequence a list of unit computations in order. -/
def mlist {σ : Type} : List (M σ Unit) → M σ Unit
  | [] => mpure ()
  | m :: ms => mseq m (mlist ms)

/-- Attempt one I2C bus write of `bytes` to address `addr`: the attempt is
recorded on the trace and counted; the oracle decides whether it succeeds. -/
def busWrite {σ : Type} (addr : Nat) (bytes : List Nat) : M σ Bool :=
  fun bus s =>
    R.ok (bus s.nw) { s with tr := Ev.wr addr bytes :: s.tr, nw := s.nw + 1 }

/-- The bus oracle on which every write succeeds. -/
def busOk : Nat → Bool := fun _ => true

/-- The bus oracle on which every write fails. -/
def busFail : Nat → Bool := fun _ => false

/-- Bitwise complement of a `u8` (Rust `!x` on `u8`). -/
def not8 (x : Nat) : Nat := 0xff ^^^ (x % 256)

/-! ## Constants

Values as declared in `src/src/main.rs` (the library variant pulls the same
names from its `consts` module, which matches these values; the I2C byte
layout `[D7 D6 D5 D4 | Backlight | Enable | RW | RS]` fixes `EN`, `RS` and
the backlight bit). -/

/-- I2C address of the expander. -/
def LCD_ADDRESS : Nat := 0x27
/-- Backlight bit of the expander byte. -/
def LCD_BACKLIGHT : Nat := 0x08
/-- Backlight off. -/
def LCD_NOBACKLIGHT : Nat := 0x00
/-- Enable bit of the expander byte. -/
def EN : Nat := 0x04
/-- Register-select bit of the expander byte (data transfer). -/
def RS : Nat := 0x01
/-- Clear-display command. -/
def LCD_CLEARDISPLAY : Nat := 0x01
/-- Return-home command. -/
def LCD_RETURNHOME : Nat := 0x02
/-- Entry-mode-set command. -/
def LCD_ENTRYMODESET : Nat := 0x04
/-- Display-control command. -/
def LCD_DISPLAYCONTROL : Nat := 0x08
/-- Cursor-shift command. -/
def LCD_CURSORSHIFT : Nat := 0x10
/-- Function-set command. -/
def LCD_FUNCTIONSET : Nat := 0x20
/-- Set-CGRAM-address command. -/
def LCD_SETCGRAMADDR : Nat := 0x40
/-- Set-DDRAM-address command. -/
def LCD_SETDDRAMADDR : Nat := 0x80
/-- Entry mode: left-to-right. -/
def LCD_ENTRYLEFT : Nat := 0x02
/-- Entry mode: no display shift. -/
def LCD_ENTRYSHIFTDECREMENT : Nat := 0x00
/-- Display control: display on. -/
def LCD_DISPLAYON : Nat := 0x04
/-- Display control: cursor off. -/
def LCD_CURSOROFF : Nat := 0x00
/-- Display control: blink off. -/
def LCD_BLINKOFF : Nat := 0x00
/-- Function set: 4-bit interface. -/
def LCD_4BITMODE : Nat := 0x00
/-- Function set: two display lines. -/
def LCD_2LINE : Nat := 0x08
/-- Function set: one display line. -/
def LCD_1LINE : Nat := 0x00
/-- Function set: 5x8 dot font. -/
def LCD_5X8DOTS : Nat := 0x00

namespace LcdI2c

/-- The `Lcd` driver state of `src/lcd_i2c_rs/src/lib.rs`.  The stored
`i2c: Result<I2cDriver, EspError>` field is modelled by `i2cOk`: whether the
stored result is `Ok` (the driver `unwrap`s it on every bus write). -/
structure Lcd where
  i2cOk : Bool
  cols : Nat
  rows : Nat
  display_mode : Nat
  display_control : Nat
  backlight : Nat
  current_line : Nat
deriving DecidableEq, Repr

/-- `Lcd::new`: fresh driver state with the given geometry. -/
def Lcd.new (i2cOk : Bool) (cols rows : Nat) : Lcd :=
  { i2cOk := i2cOk
    cols := cols
    rows := rows
    display_mode := LCD_ENTRYLEFT ||| LCD_ENTRYSHIFTDECREMENT
    display_control := LCD_DISPLAYON ||| LCD_CURSOROFF ||| LCD_BLINKOFF
    backlight := LCD_NOBACKLIGHT
    current_line := 0 }

/-- `Lcd::expander_write`: writes the two-byte payload `[0, data]` to the
expander.  `self.i2c.as_mut().unwrap()` panics when the stored result is an
`Err`; `.write(...).expect("Failed to write to expander")` panics when the
bus write fails. -/
def expander_write (data : Nat) : M Lcd Unit :=
  mbind getDev fun l =>
    if l.i2cOk then
      mbind (busWrite LCD_ADDRESS [0, data % 256]) fun okw =>
        if okw then mpure () else abortPanic "Failed to write to expander"
    else
      abortPanic "called unwrap on an Err value"

/-- `Lcd::pulse_enable`: write the byte with Enable set (backlight OR'ed in),
wait 1 us, write it with Enable cleared (backlight OR'ed in), wait 50 us. -/
def pulse_enable (data : Nat) : M Lcd Unit :=
  mbind getDev fun l =>
  mseq (expander_write ((data ||| EN) ||| l.backlight))
  (mseq (emit (Ev.delayUs 1))
  (mseq (expander_write ((data &&& not8 EN) ||| l.backlight))
  (emit (Ev.delayUs 50))))

/-- `Lcd::write4bits`: write the byte, then pulse Enable on it. -/
def write4bits (data : Nat) : M Lcd Unit :=
  mseq (expander_write data) (pulse_enable data)

/-- `Lcd::send`: split `value` into high and low nibble and write each,
high first, composed with the mode bit and the backlight bit, via
`write4bits`.  A ghost `sendByte` marker records the logical transfer. -/
def send (value mode : Nat) : M Lcd Unit :=
  mseq (emit (Ev.sendByte (value % 256) (mode % 256)))
  (mbind getDev fun l =>
    let high_nibble := (value % 256) &&& 0xf0
    let low_nibble := ((value % 256) <<< 4) &&& 0xf0
    let high_cmd := (high_nibble ||| (mode % 256)) ||| l.backlight
    mseq (write4bits high_cmd)
    (let low_cmd := (low_nibble ||| (mode % 256)) ||| l.backlight
     write4bits low_cmd))

/-- The row-offset table of `Lcd::set_cursor`: defined for 1, 2 and 4 rows. -/
def rowOffsets (rows : Nat) : Option (List Nat) :=
  match rows with
  | 1 => some [0x00]
  | 2 => some [0x00, 0x40]
  | 4 => some [0x00, 0x40, 0x14, 0x54]
  | _ => none

/-- `Lcd::set_cursor`: errors when `row >= rows`; errors when `rows` has no
row-offset table; otherwise sends `LCD_SETDDRAMADDR | (col + offset[row])`
(u8 addition, hence `% 256`) and records `current_line = row`. -/
def set_cursor (col row : Nat) : M Lcd Unit :=
  mbind getDev fun l =>
    if row ≥ l.rows then throwErr "Row out of bounds"
    else
      match rowOffsets l.rows with
      | none => throwErr "Invalid number of rows"
      | some offs =>
        mseq (send (LCD_SETDDRAMADDR ||| ((col + offs.getD row 0) % 256)) 0x0)
        (modifyDev fun l2 => { l2 with current_line := row })

/-- `Lcd::print`: send the character's byte code as data. -/
def print (ch : Char) : M Lcd Unit :=
  send (ch.toNat % 256) RS

/-- `Lcd::print_str`: print each character in order, stopping at the first
error. -/
def print_str : List Char → M Lcd Unit
  | [] => mpure ()
  | c :: cs => mseq (print c) (print_str cs)

/-- One iteration step of `Lcd::print_long_str`'s loop, at enumeration index
`i`: compute `col = (i as u8) % cols` and `row = (i as u8) / cols` (u8 `%`
and `/` panic on a zero divisor), wrap `row` to 0 when `row >= rows`, then
`set_cursor` and `print`. -/
def print_long_str_loop : List Char → Nat → M Lcd Unit
  | [], _ => mpure ()
  | ch :: rest, i =>
    mbind getDev fun l =>
      if l.cols = 0 then abortPanic "attempt to calculate the remainder with a divisor of zero"
      else
        let col := (i % 256) % l.cols
        let row0 := (i % 256) / l.cols
        mbind getDev fun l2 =>
          let row := if row0 ≥ l2.rows then 0 else row0
          mseq (set_cursor col row)
          (mseq (print ch)
          (print_long_str_loop rest (i + 1)))

/-- `Lcd::print_long_str`: set the cursor to (0,0), then run the enumerated
loop from index 0. -/
def print_long_str (str : List Char) : M Lcd Unit :=
  mseq (set_cursor 0 0) (print_long_str_loop str 0)

/-- `Lcd::display_on`: set the display-on bit and resend the display-control
command. -/
def display_on : M Lcd Unit :=
  mseq (modifyDev fun l => { l with display_control := l.display_control ||| LCD_DISPLAYON })
  (mbind getDev fun l => send (LCD_DISPLAYCONTROL ||| l.display_control) 0x0)

/-- `Lcd::clear`: send the clear command, wait 2000 us, reset
`current_line` to 0. -/
def clear : M Lcd Unit :=
  mseq (send LCD_CLEARDISPLAY 0x0)
  (mseq (emit (Ev.delayUs 2000))
  (modifyDev fun l => { l with current_line := 0 }))

/-- `Lcd::next_line`: errors on a 1-row display; otherwise wraps
`current_line` to 0 when `current_line >= rows`, else increments it, then
sets the cursor to the start of that line. -/
def next_line : M Lcd Unit :=
  mbind getDev fun l =>
    if l.rows = 1 then throwErr "Next line not supported on 1 row display"
    else
      mseq (if l.current_line ≥ l.rows then
              modifyDev fun x => { x with current_line := 0 }
            else
              modifyDev fun x => { x with current_line := (x.current_line + 1) % 256 })
      (mbind getDev fun l2 => set_cursor 0 l2.current_line)

/-- The loop of `Lcd::create_custom_chars`: `for i in 0..8` it sends
`charmap[i]` as data; the slice index panics when `i` is out of bounds. -/
def send_charmap (charmap : List Nat) : List Nat → M Lcd Unit
  | [] => mpure ()
  | i :: rest =>
    match charmap[i]? with
    | none => abortPanic "index out of bounds"
    | some b => mseq (send b RS) (send_charmap charmap rest)

/-- `Lcd::create_custom_chars`: errors when `location > 7` (before any bus
write); otherwise sends the CGRAM address command for the slot, then the
eight charmap bytes as data. -/
def create_custom_chars (location : Nat) (charmap : List Nat) : M Lcd Unit :=
  if location > 7 then throwErr "Custom character location out of bounds"
  else
    mseq (send (LCD_SETCGRAMADDR ||| ((location <<< 3) % 256)) 0x0)
    (send_charmap charmap (List.range 8))

/-- `Lcd::init`: the power-on handshake.  Waits 50 ms, asserts the initial
backlight state, waits 1000 ms, writes high nibble 0x3 three times with
4.5 ms waits, writes high nibble 0x2, then sends FunctionSet (2-line when
`rows > 1`), DisplayControl (via `display_on`), Clear, EntryModeSet and
ReturnHome followed by a 2 ms wait. -/
def init : M Lcd Unit :=
  mbind getDev fun l =>
    let display_function :=
      if l.rows > 1 then LCD_4BITMODE ||| LCD_2LINE ||| LCD_5X8DOTS
      else LCD_4BITMODE ||| LCD_1LINE ||| LCD_5X8DOTS
    mlist
      [ emit (Ev.delayUs 50000),
        mbind getDev fun x => expander_write x.backlight,
        emit (Ev.delayUs 1000000),
        mbind getDev fun x => write4bits ((0x03 <<< 4) ||| x.backlight),
        emit (Ev.delayUs 4500),
        mbind getDev fun x => write4bits ((0x03 <<< 4) ||| x.backlight),
        emit (Ev.delayUs 4500),
        mbind getDev fun x => write4bits ((0x03 <<< 4) ||| x.backlight),
        emit (Ev.delayUs 4500),
        mbind getDev fun x => write4bits ((0x02 <<< 4) ||| x.backlight),
        send (LCD_FUNCTIONSET ||| display_function) 0x0,
        modifyDev fun x =>
          { x with display_control := LCD_DISPLAYON ||| LCD_CURSOROFF ||| LCD_BLINKOFF },
        display_on,
        clear,
        modifyDev fun x =>
          { x with display_mode := LCD_ENTRYLEFT ||| LCD_ENTRYSHIFTDECREMENT },
        mbind getDev fun x => send (LCD_ENTRYMODESET ||| x.display_mode) 0x0,
        send LCD_RETURNHOME 0x0,
        emit (Ev.delayUs 2000) ]

end LcdI2c

namespace MainRs

/-- The `SimpleLcd` driver state of `src/src/main.rs`.  It has no stored
geometry: its cursor logic hard-codes a two-row display. -/
structure SimpleLcd where
  backlight : Nat
  display_control : Nat
  display_mode : Nat
deriving DecidableEq, Repr

/-- `SimpleLcd::new`: fresh driver state. -/
def SimpleLcd.new : SimpleLcd :=
  { backlight := LCD_NOBACKLIGHT
    display_control := LCD_DISPLAYON ||| LCD_CURSOROFF ||| LCD_BLINKOFF
    display_mode := LCD_ENTRYLEFT ||| LCD_ENTRYSHIFTDECREMENT }

/-- `SimpleLcd::expander_write`: writes the one-byte payload `[data]` to the
expander; a failing bus write is mapped to the recoverable error
`"I2C write failed"`. -/
def expander_write (data : Nat) : M SimpleLcd Unit :=
  mbind (busWrite LCD_ADDRESS [data % 256]) fun okw =>
    if okw then mpure () else throwErr "I2C write failed"

/-- `SimpleLcd::pulse_enable`: write the byte with Enable set (backlight
OR'ed in), wait 1 us, write it with Enable cleared (backlight OR'ed in),
wait 50 us. -/
def pulse_enable (data : Nat) : M SimpleLcd Unit :=
  mbind getDev fun l =>
  mseq (expander_write ((data ||| EN) ||| l.backlight))
  (mseq (emit (Ev.delayUs 1))
  (mseq (expander_write ((data &&& not8 EN) ||| l.backlight))
  (emit (Ev.delayUs 50))))

/-- `SimpleLcd::write4bits`: write the byte, then pulse Enable on it. -/
def write4bits (data : Nat) : M SimpleLcd Unit :=
  mseq (expander_write data) (pulse_enable data)

/-- `SimpleLcd::send`: split `value` into high and low nibble and write
each, high first, composed with the mode bit and the backlight bit, via
`write4bits`.  A ghost `sendByte` marker records the logical transfer. -/
def send (value mode : Nat) : M SimpleLcd Unit :=
  mseq (emit (Ev.sendByte (value % 256) (mode % 256)))
  (mbind getDev fun l =>
    let high_nibble := (value % 256) &&& 0xf0
    let low_nibble := ((value % 256) <<< 4) &&& 0xf0
    let high_cmd := (high_nibble ||| (mode % 256)) ||| l.backlight
    mseq (write4bits high_cmd)
    (let low_cmd := (low_nibble ||| (mode % 256)) ||| l.backlight
     write4bits low_cmd))

/-- `SimpleLcd::set_cursor`: row offsets `[0x00, 0x40]`, errors when
`row >= 2`, otherwise sends `LCD_SETDDRAMADDR | (col + offset[row])`
(u8 addition, hence `% 256`). -/
def set_cursor (col row : Nat) : M SimpleLcd Unit :=
  let row_offsets : List Nat := [0x00, 0x40]
  if row ≥ 2 then throwErr "Row out of bounds"
  else send (LCD_SETDDRAMADDR ||| ((col + row_offsets.getD row 0) % 256)) 0x0

/-- `SimpleLcd::clear`: send the clear command, wait 2000 us. -/
def clear : M SimpleLcd Unit :=
  mseq (send LCD_CLEARDISPLAY 0x0) (emit (Ev.delayUs 2000))

/-- `SimpleLcd::print_char`: send the character's byte code as data. -/
def print_char (ch : Char) : M SimpleLcd Unit :=
  send (ch.toNat % 256) RS

/-- `SimpleLcd::print_str`: print each character in order, stopping at the
first error. -/
def print_str : List Char → M SimpleLcd Unit
  | [] => mpure ()
  | c :: cs => mseq (print_char c) (print_str cs)

/-- `SimpleLcd::backlight_on`: set the backlight field and immediately push
the latch byte to the expander. -/
def backlight_on : M SimpleLcd Unit :=
  mseq (modifyDev fun l => { l with backlight := LCD_BACKLIGHT })
  (mbind getDev fun l => expander_write l.backlight)

/-- `SimpleLcd::init`: wait 50 ms, assert the initial backlight state, wait
1000 ms, write high nibble 0x3 three times with 4.5 ms waits, write high
nibble 0x2, then send FunctionSet (always 2-line), DisplayControl, Clear,
EntryModeSet and ReturnHome followed by a 2 ms wait. -/
def init : M SimpleLcd Unit :=
  mlist
    [ emit (Ev.delayUs 50000),
      mbind getDev fun x => expander_write x.backlight,
      emit (Ev.delayUs 1000000),
      mbind getDev fun x => write4bits ((0x03 <<< 4) ||| x.backlight),
      emit (Ev.delayUs 4500),
      mbind getDev fun x => write4bits ((0x03 <<< 4) ||| x.backlight),
      emit (Ev.delayUs 4500),
      mbind getDev fun x => write4bits ((0x03 <<< 4) ||| x.backlight),
      emit (Ev.delayUs 4500),
      mbind getDev fun x => write4bits ((0x02 <<< 4) ||| x.backlight),
      send (LCD_FUNCTIONSET ||| (LCD_4BITMODE ||| LCD_2LINE ||| LCD_5X8DOTS)) 0x0,
      modifyDev fun x =>
        { x with display_control := LCD_DISPLAYON ||| LCD_CURSOROFF ||| LCD_BLINKOFF },
      mbind getDev fun x => send (LCD_DISPLAYCONTROL ||| x.display_control) 0x0,
      clear,
      modifyDev fun x =>
        { x with display_mode := LCD_ENTRYLEFT ||| LCD_ENTRYSHIFTDECREMENT },
      mbind getDev fun x => send (LCD_ENTRYMODESET ||| x.display_mode) 0x0,
      send LCD_RETURNHOME 0x0,
      emit (Ev.delayUs 2000) ]

end MainRs

/-! ## Trace observations -/

/-- The logical byte transfers `(value, mode)` recorded on a chronological
trace, in order. -/
def sendsOf (tr : List Ev) : List (Nat × Nat) :=
  tr.filterMap fun e =>
    match e with
    | Ev.sendByte v m => some (v, m)
    | _ => none

/-- The bus-write payloads recorded on a chronological trace, in order. -/
def wrPayloads (tr : List Ev) : List (List Nat) :=
  tr.filterMap fun e =>
    match e with
    | Ev.wr _ bs => some bs
    | _ => none

/-- `maskIn mask x`: every bit of `mask` is present in `x`. -/
def maskIn (mask x : Nat) : Prop := mask ||| x = x

instance (mask x : Nat) : Decidable (maskIn mask x) := by
  unfold maskIn; infer_instance

/-- Run a computation on the all-success bus from an empty trace and return
the chronological trace when it succeeds. -/
def runTrace {σ : Type} (m : M σ Unit) (dev : σ) : Option (List Ev) :=
  match m busOk ⟨dev, [], 0⟩ with
  | R.ok _ st => some st.traceOut
  | _ => none

/-- Run a computation on the all-success bus from an empty trace and return
the logical byte transfers it performs when it succeeds. -/
def runSends {σ : Type} (m : M σ Unit) (dev : σ) : Option (List (Nat × Nat)) :=
  (runTrace m dev).map sendsOf

/-- The event list (most recent first) that one `Lcd::send value mode` call
of the library variant appends to the trace, with backlight field `bl`. -/
def LcdI2c.sendEvs (bl v m : Nat) : List Ev :=
  let v' := v % 256
  let m' := m % 256
  let hc := ((v' &&& 0xf0) ||| m') ||| bl
  let lc := (((v' <<< 4) &&& 0xf0) ||| m') ||| bl
  [Ev.delayUs 50,
   Ev.wr LCD_ADDRESS [0, ((lc &&& not8 EN) ||| bl) % 256],
   Ev.delayUs 1,
   Ev.wr LCD_ADDRESS [0, ((lc ||| EN) ||| bl) % 256],
   Ev.wr LCD_ADDRESS [0, lc % 256],
   Ev.delayUs 50,
   Ev.wr LCD_ADDRESS [0, ((hc &&& not8 EN) ||| bl) % 256],
   Ev.delayUs 1,
   Ev.wr LCD_ADDRESS [0, ((hc ||| EN) ||| bl) % 256],
   Ev.wr LCD_ADDRESS [0, hc % 256],
   Ev.sendByte v' m']

/-- Run a computation on the all-success bus from an empty trace and return
the payloads of the bus writes it performs (empty on failure). -/
def runPayloads {σ : Type} (m : M σ Unit) (dev : σ) : List (List Nat) :=
  match m busOk ⟨dev, [], 0⟩ with
  | R.ok _ st => wrPayloads st.traceOut
  | _ => []

/-- The event list (most recent first) that one `Lcd::write4bits data` call
of the library variant appends to the trace, with backlight field `bl`. -/
def LcdI2c.w4bEvs (bl d : Nat) : List Ev :=
  [Ev.delayUs 50,
   Ev.wr LCD_ADDRESS [0, ((d &&& not8 EN) ||| bl) % 256],
   Ev.delayUs 1,
   Ev.wr LCD_ADDRESS [0, ((d ||| EN) ||| bl) % 256],
   Ev.wr LCD_ADDRESS [0, d % 256]]

/-- The event list (most recent first) that one `SimpleLcd::send value mode`
call of the main.rs variant appends to the trace, with backlight `bl`. -/
def MainRs.sendEvs (bl v m : Nat) : List Ev :=
  let v' := v % 256
  let m' := m % 256
  let hc := ((v' &&& 0xf0) ||| m') ||| bl
  let lc := (((v' <<< 4) &&& 0xf0) ||| m') ||| bl
  [Ev.delayUs 50,
   Ev.wr LCD_ADDRESS [((lc &&& not8 EN) ||| bl) % 256],
   Ev.delayUs 1,
   Ev.wr LCD_ADDRESS [((lc ||| EN) ||| bl) % 256],
   Ev.wr LCD_ADDRESS [lc % 256],
   Ev.delayUs 50,
   Ev.wr LCD_ADDRESS [((hc &&& not8 EN) ||| bl) % 256],
   Ev.delayUs 1,
   Ev.wr LCD_ADDRESS [((hc ||| EN) ||| bl) % 256],
   Ev.wr LCD_ADDRESS [hc % 256],
   Ev.sendByte v' m']

/-- The event list (most recent first) that one `SimpleLcd::write4bits data`
call of the main.rs variant appends to the trace, with backlight `bl`. -/
def MainRs.w4bEvs (bl d : Nat) : List Ev :=
  [Ev.delayUs 50,
   Ev.wr LCD_ADDRESS [((d &&& not8 EN) ||| bl) % 256],
   Ev.delayUs 1,
   Ev.wr LCD_ADDRESS [((d ||| EN) ||| bl) % 256],
   Ev.wr LCD_ADDRESS [d % 256]]

/-- The column and row at which `Lcd::print_long_str` places the character
of enumeration index `i`: the index is truncated to u8 (`i as u8`), the
column is the truncated index mod `cols`, the row the truncated index div
`cols`, wrapped to 0 when it reaches `rows`. -/
def placedColRow (cols rows i : Nat) : Nat × Nat :=
  let j := i % 256
  let col := j % cols
  let r0 := j / cols
  (col, if r0 ≥ rows then 0 else r0)

/-- The logical transfers performed by the loop of `Lcd::print_long_str`
for the remaining characters starting at enumeration index `i`: for each
character one DDRAM-address command at its `placedColRow` position followed
by one data transfer of its byte code. -/
def expectedLongStr (cols rows : Nat) (offs : List Nat) : List Char → Nat → List (Nat × Nat)
  | [], _ => []
  | ch :: rest, i =>
    (LCD_SETDDRAMADDR |||
        (((placedColRow cols rows i).1 + offs.getD (placedColRow cols rows i).2 0) % 256),
      0x0) ::
    (ch.toNat % 256, RS) ::
    expectedLongStr cols rows offs rest (i + 1)

/-- Running `Lcd::send` on the all-success bus appends `sendEvs` to the
trace, uses six bus writes, and leaves the device state unchanged. -/
theorem LcdI2c.send_run (c r dm dc bl cl v m : Nat) (tr0 : List Ev) (nw0 : Nat) :
    LcdI2c.send v m busOk ⟨⟨true, c, r, dm, dc, bl, cl⟩, tr0, nw0⟩ =
      R.ok () ⟨⟨true, c, r, dm, dc, bl, cl⟩, LcdI2c.sendEvs bl v m ++ tr0, nw0 + 6⟩ := rfl

/-- The logical transfers of one `sendEvs` block, chronologically. -/
theorem LcdI2c.sendsOf_sendEvs (bl v m : Nat) :
    sendsOf (LcdI2c.sendEvs bl v m).reverse = [(v % 256, m % 256)] := rfl

/-- `sendsOf` distributes over trace concatenation. -/
theorem sendsOf_append (a b : List Ev) :
    sendsOf (a ++ b) = sendsOf a ++ sendsOf b := by
  simp [sendsOf, List.filterMap_append]

/-- Indexing a list by `List.range` of its length and reading each byte
back recovers the list of data transfers of the list itself. -/
theorem range_map_getD :
    ∀ (l : List Nat), (List.range l.length).map (fun i => (l.getD i 0 % 256, RS)) =
      l.map (fun b => (b % 256, RS)) := by
  intro l
  induction l with
  | nil => rfl
  | cons a t ih =>
    rw [List.length_cons, List.range_succ_eq_map]
    simp only [List.map_cons, List.map_map]
    have hcomp : ((fun i => ((a :: t).getD i 0 % 256, RS)) ∘ fun i => i + 1) =
        fun i => (t.getD i 0 % 256, RS) := by
      funext i
      rfl
    rw [hcomp]
    simp only [List.getD_cons_zero]
    rw [ih]

/-- Running the `create_custom_chars` data loop over in-bounds indices
transfers the indexed bytes, in order, as data. -/
theorem LcdI2c.send_charmap_run (charmap : List Nat) :
    ∀ (idxs : List Nat) (c r dm dc bl cl : Nat) (tr0 : List Ev) (nw0 : Nat),
      (∀ i ∈ idxs, i < charmap.length) →
      ∃ tr', LcdI2c.send_charmap charmap idxs busOk
          ⟨⟨true, c, r, dm, dc, bl, cl⟩, tr0, nw0⟩ =
          R.ok () ⟨⟨true, c, r, dm, dc, bl, cl⟩, tr' ++ tr0, nw0 + 6 * idxs.length⟩ ∧
        sendsOf tr'.reverse = idxs.map (fun i => (charmap.getD i 0 % 256, RS)) := by
  intro idxs
  induction idxs with
  | nil =>
    intro c r dm dc bl cl tr0 nw0 h
    refine ⟨[], ?_, rfl⟩
    simp [LcdI2c.send_charmap, mpure]
  | cons i rest ih =>
    intro c r dm dc bl cl tr0 nw0 h
    have hi : i < charmap.length := h i (List.mem_cons_self i rest)
    have hv : charmap[i]? = some (charmap.getD i 0) := by
      rw [List.getD_eq_getElem?_getD, List.getElem?_eq_getElem hi]
      rfl
    obtain ⟨tr', htr', hs⟩ :=
      ih c r dm dc bl cl (LcdI2c.sendEvs bl (charmap.getD i 0) RS ++ tr0) (nw0 + 6)
        (fun j hj => h j (List.mem_cons_of_mem i hj))
    refine ⟨tr' ++ LcdI2c.sendEvs bl (charmap.getD i 0) RS, ?_, ?_⟩
    · simp only [LcdI2c.send_charmap]
      rw [hv]
      show (mseq (LcdI2c.send (charmap.getD i 0) RS) (LcdI2c.send_charmap charmap rest))
        busOk ⟨⟨true, c, r, dm, dc, bl, cl⟩, tr0, nw0⟩ = _
      simp only [mseq, mbind]
      rw [LcdI2c.send_run]
      show LcdI2c.send_charmap charmap rest busOk
        ⟨⟨true, c, r, dm, dc, bl, cl⟩,
          LcdI2c.sendEvs bl (charmap.getD i 0) RS ++ tr0, nw0 + 6⟩ = _
      rw [htr', List.append_assoc]
      have harith : nw0 + 6 + 6 * rest.length = nw0 + 6 * (i :: rest).length := by
        simp only [List.length_cons]
        ring
      rw [harith]
    · rw [List.reverse_append, sendsOf_append, LcdI2c.sendsOf_sendEvs, hs]
      simp [RS]

/-- Running the `create_custom_chars` data loop over in-bounds indices
followed by an out-of-bounds index transfers the in-bounds bytes and then
panics on the slice access. -/
theorem LcdI2c.send_charmap_panic (charmap : List Nat) :
    ∀ (good : List Nat) (bad : Nat) (rest2 : List Nat) (c r dm dc bl cl : Nat)
        (tr0 : List Ev) (nw0 : Nat),
      (∀ i ∈ good, i < charmap.length) → charmap.length ≤ bad →
      ∃ tr', LcdI2c.send_charmap charmap (good ++ bad :: rest2) busOk
          ⟨⟨true, c, r, dm, dc, bl, cl⟩, tr0, nw0⟩ =
          R.panic "index out of bounds"
            ⟨⟨true, c, r, dm, dc, bl, cl⟩, tr' ++ tr0, nw0 + 6 * good.length⟩ ∧
        sendsOf tr'.reverse = good.map (fun i => (charmap.getD i 0 % 256, RS)) := by
  intro good
  induction good with
  | nil =>
    intro bad rest2 c r dm dc bl cl tr0 nw0 hgood hbad
    refine ⟨[], ?_, rfl⟩
    simp only [List.nil_append, LcdI2c.send_charmap]
    rw [List.getElem?_eq_none hbad]
    simp [abortPanic]
  | cons i rest ih =>
    intro bad rest2 c r dm dc bl cl tr0 nw0 hgood hbad
    have hi : i < charmap.length := hgood i (List.mem_cons_self i rest)
    have hv : charmap[i]? = some (charmap.getD i 0) := by
      rw [List.getD_eq_getElem?_getD, List.getElem?_eq_getElem hi]
      rfl
    obtain ⟨tr', htr', hs⟩ :=
      ih bad rest2 c r dm dc bl cl (LcdI2c.sendEvs bl (charmap.getD i 0) RS ++ tr0)
        (nw0 + 6) (fun j hj => hgood j (List.mem_cons_of_mem i hj)) hbad
    refine ⟨tr' ++ LcdI2c.sendEvs bl (charmap.getD i 0) RS, ?_, ?_⟩
    · show LcdI2c.send_charmap charmap (i :: (rest ++ bad :: rest2)) busOk _ = _
      simp only [LcdI2c.send_charmap]
      rw [hv]
      show (mseq (LcdI2c.send (charmap.getD i 0) RS)
          (LcdI2c.send_charmap charmap (rest ++ bad :: rest2)))
        busOk ⟨⟨true, c, r, dm, dc, bl, cl⟩, tr0, nw0⟩ = _
      simp only [mseq, mbind]
      rw [LcdI2c.send_run]
      show LcdI2c.send_charmap charmap (rest ++ bad :: rest2) busOk
        ⟨⟨true, c, r, dm, dc, bl, cl⟩,
          LcdI2c.sendEvs bl (charmap.getD i 0) RS ++ tr0, nw0 + 6⟩ = _
      rw [htr', List.append_assoc]
      have harith : nw0 + 6 + 6 * rest.length = nw0 + 6 * (i :: rest).length := by
        simp only [List.length_cons]
        ring
      rw [harith]
    · rw [List.reverse_append, sendsOf_append, LcdI2c.sendsOf_sendEvs, hs]
      simp [RS]

/-- Running `Lcd::set_cursor` on the all-success bus with a valid row and a
supported geometry sends the DDRAM-address command and records the row. -/
theorem LcdI2c.set_cursor_run (c r dm dc bl cl col row : Nat) (offs : List Nat)
    (tr0 : List Ev) (nw0 : Nat)
    (hoffs : LcdI2c.rowOffsets r = some offs) (hrow : row < r) :
    LcdI2c.set_cursor col row busOk ⟨⟨true, c, r, dm, dc, bl, cl⟩, tr0, nw0⟩ =
      R.ok () ⟨⟨true, c, r, dm, dc, bl, row⟩,
        LcdI2c.sendEvs bl (LCD_SETDDRAMADDR ||| ((col + offs.getD row 0) % 256)) 0x0 ++ tr0,
        nw0 + 6⟩ := by
  simp only [LcdI2c.set_cursor, mbind, getDev]
  rw [if_neg (by omega)]
  rw [hoffs]
  simp only [mseq, mbind]
  rw [LcdI2c.send_run]
  rfl

/-- Running `Lcd::set_cursor` on a geometry without a row-offset table, with
a row below the row count, errors without touching the bus. -/
theorem LcdI2c.set_cursor_run_unsupported (c r dm dc bl cl col row : Nat)
    (tr0 : List Ev) (nw0 : Nat) (bus : Nat → Bool)
    (hoffs : LcdI2c.rowOffsets r = none) (hrow : row < r) :
    LcdI2c.set_cursor col row bus ⟨⟨true, c, r, dm, dc, bl, cl⟩, tr0, nw0⟩ =
      R.err "Invalid number of rows" ⟨⟨true, c, r, dm, dc, bl, cl⟩, tr0, nw0⟩ := by
  simp only [LcdI2c.set_cursor, mbind, getDev]
  rw [if_neg (by omega)]
  rw [hoffs]
  rfl

/-- Sequencing after a computation that returns normally continues from its
final state. -/
theorem mseq_ok {σ α : Type} (A : M σ Unit) (K : M σ α) (bus : Nat → Bool)
    (s s1 : St σ) (h : A bus s = R.ok () s1) : mseq A K bus s = K bus s1 := by
  simp [mseq, mbind, h]

/-- A geometry with a row-offset table has at least one row. -/
theorem LcdI2c.rowOffsets_pos (rows : Nat) (offs : List Nat)
    (h : LcdI2c.rowOffsets rows = some offs) : 0 < rows := by
  rcases Nat.eq_zero_or_pos rows with h0 | h0
  · subst h0
    simp [LcdI2c.rowOffsets] at h
  · exact h0

/-- A DDRAM-address command byte is already reduced modulo 256. -/
theorem or128_mod (y : Nat) :
    (LCD_SETDDRAMADDR ||| (y % 256)) % 256 = LCD_SETDDRAMADDR ||| (y % 256) := by
  apply Nat.mod_eq_of_lt
  have hy : y % 256 < 256 := Nat.mod_lt y (by norm_num)
  have h := Nat.or_lt_two_pow (x := LCD_SETDDRAMADDR) (y := y % 256) (n := 8)
    (by norm_num [LCD_SETDDRAMADDR]) (by simpa using hy)
  simpa using h

/-- Running `Lcd::print` on the all-success bus appends one `sendEvs` block
of the character's byte code as data. -/
theorem LcdI2c.print_run (ch : Char) (c r dm dc bl cl : Nat) (tr0 : List Ev) (nw0 : Nat) :
    LcdI2c.print ch busOk ⟨⟨true, c, r, dm, dc, bl, cl⟩, tr0, nw0⟩ =
      R.ok () ⟨⟨true, c, r, dm, dc, bl, cl⟩,
        LcdI2c.sendEvs bl (ch.toNat % 256) RS ++ tr0, nw0 + 6⟩ :=
  LcdI2c.send_run c r dm dc bl cl (ch.toNat % 256) RS tr0 nw0

/-- One unfolding step of the `print_long_str` loop on a character. -/
theorem LcdI2c.print_long_str_loop_cons (ch : Char) (rest : List Char)
    (i cols rows dm dc bl cl : Nat) (tr0 : List Ev) (nw0 : Nat) (bus : Nat → Bool) :
    LcdI2c.print_long_str_loop (ch :: rest) i bus
        ⟨⟨true, cols, rows, dm, dc, bl, cl⟩, tr0, nw0⟩ =
      (if cols = 0 then
        abortPanic "attempt to calculate the remainder with a divisor of zero"
       else
        mbind getDev fun l2 =>
          mseq (LcdI2c.set_cursor ((i % 256) % cols)
              (if (i % 256) / cols ≥ l2.rows then 0 else (i % 256) / cols))
            (mseq (LcdI2c.print ch) (LcdI2c.print_long_str_loop rest (i + 1))))
        bus ⟨⟨true, cols, rows, dm, dc, bl, cl⟩, tr0, nw0⟩ := rfl

/-- Running the `print_long_str` loop on the all-success bus from index `i`
performs exactly the transfers of `expectedLongStr` and returns normally. -/
theorem LcdI2c.print_long_str_loop_run (cols rows : Nat) (offs : List Nat)
    (hoffs : LcdI2c.rowOffsets rows = some offs) (hcols : 0 < cols) :
    ∀ (cs : List Char) (i dm dc bl cl : Nat) (tr0 : List Ev) (nw0 : Nat),
      ∃ tr' cl',
        LcdI2c.print_long_str_loop cs i busOk
            ⟨⟨true, cols, rows, dm, dc, bl, cl⟩, tr0, nw0⟩ =
          R.ok () ⟨⟨true, cols, rows, dm, dc, bl, cl'⟩, tr' ++ tr0,
            nw0 + 12 * cs.length⟩ ∧
        sendsOf tr'.reverse = expectedLongStr cols rows offs cs i := by
  intro cs
  induction cs with
  | nil =>
    intro i dm dc bl cl tr0 nw0
    refine ⟨[], cl, ?_, rfl⟩
    simp [LcdI2c.print_long_str_loop, mpure]
  | cons ch rest ih =>
    intro i dm dc bl cl tr0 nw0
    have h0rows : 0 < rows := LcdI2c.rowOffsets_pos rows offs hoffs
    have hrow : (if (i % 256) / cols ≥ rows then 0 else (i % 256) / cols) < rows := by
      rcases le_or_lt rows ((i % 256) / cols) with h | h
      · rw [if_pos h]
        exact h0rows
      · rw [if_neg (by omega)]
        exact h
    obtain ⟨tr', cl', htr', hs⟩ :=
      ih (i + 1) dm dc bl (if (i % 256) / cols ≥ rows then 0 else (i % 256) / cols)
        (LcdI2c.sendEvs bl (ch.toNat % 256) RS ++
          (LcdI2c.sendEvs bl (LCD_SETDDRAMADDR |||
            (((i % 256) % cols +
              offs.getD (if (i % 256) / cols ≥ rows then 0 else (i % 256) / cols) 0) % 256))
            0x0 ++ tr0))
        (nw0 + 6 + 6)
    refine ⟨tr' ++
      (LcdI2c.sendEvs bl (ch.toNat % 256) RS ++
        LcdI2c.sendEvs bl (LCD_SETDDRAMADDR |||
          (((i % 256) % cols +
            offs.getD (if (i % 256) / cols ≥ rows then 0 else (i % 256) / cols) 0) % 256))
          0x0), cl', ?_, ?_⟩
    · rw [LcdI2c.print_long_str_loop_cons, if_neg (by omega : ¬ cols = 0)]
      show (mseq (LcdI2c.set_cursor ((i % 256) % cols)
            (if (i % 256) / cols ≥ rows then 0 else (i % 256) / cols))
          (mseq (LcdI2c.print ch) (LcdI2c.print_long_str_loop rest (i + 1))))
        busOk ⟨⟨true, cols, rows, dm, dc, bl, cl⟩, tr0, nw0⟩ = _
      rw [mseq_ok _ _ _ _ _
        (LcdI2c.set_cursor_run cols rows dm dc bl cl ((i % 256) % cols)
          (if (i % 256) / cols ≥ rows then 0 else (i % 256) / cols) offs tr0 nw0 hoffs hrow)]
      rw [mseq_ok _ _ _ _ _ (LcdI2c.print_run ch cols rows dm dc bl _ _ _)]
      rw [htr']
      have harith : nw0 + 6 + 6 + 12 * rest.length = nw0 + 12 * (ch :: rest).length := by
        simp only [List.length_cons]
        ring
      rw [harith]
      simp only [List.append_assoc]
    · rw [List.reverse_append, sendsOf_append, List.reverse_append, sendsOf_append,
        LcdI2c.sendsOf_sendEvs, LcdI2c.sendsOf_sendEvs, hs]
      show _ = expectedLongStr cols rows offs (ch :: rest) i
      simp only [expectedLongStr, placedColRow]
      rw [or128_mod, Nat.mod_mod_of_dvd ch.toNat (dvd_refl 256)]
      simp [RS]

/-- Running `Lcd::print_long_str` on the all-success bus: it first sets the
cursor to (0, 0) and then performs exactly the transfers of
`expectedLongStr` from index 0. -/
theorem LcdI2c.print_long_str_run (cols rows : Nat) (offs : List Nat)
    (dm dc bl cl : Nat) (cs : List Char) (nw0 : Nat)
    (hoffs : LcdI2c.rowOffsets rows = some offs) (hcols : 0 < cols) :
    ∃ st', LcdI2c.print_long_str cs busOk
        ⟨⟨true, cols, rows, dm, dc, bl, cl⟩, [], nw0⟩ = R.ok () st' ∧
      sendsOf st'.traceOut =
        (LCD_SETDDRAMADDR ||| ((0 + offs.getD 0 0) % 256), 0x0) ::
          expectedLongStr cols rows offs cs 0 := by
  have h0rows : 0 < rows := LcdI2c.rowOffsets_pos rows offs hoffs
  obtain ⟨tr', cl', htr', hs⟩ :=
    LcdI2c.print_long_str_loop_run cols rows offs hoffs hcols cs 0 dm dc bl 0
      (LcdI2c.sendEvs bl (LCD_SETDDRAMADDR ||| ((0 + offs.getD 0 0) % 256)) 0x0 ++ [])
      (nw0 + 6)
  refine ⟨⟨⟨true, cols, rows, dm, dc, bl, cl'⟩,
    tr' ++ (LcdI2c.sendEvs bl (LCD_SETDDRAMADDR ||| ((0 + offs.getD 0 0) % 256)) 0x0 ++ []),
    nw0 + 6 + 12 * cs.length⟩, ?_, ?_⟩
  · simp only [LcdI2c.print_long_str]
    rw [mseq_ok _ _ _ _ _
      (LcdI2c.set_cursor_run cols rows dm dc bl cl 0 0 offs [] nw0 hoffs h0rows)]
    exact htr'
  · show sendsOf ((tr' ++
      (LcdI2c.sendEvs bl (LCD_SETDDRAMADDR ||| ((0 + offs.getD 0 0) % 256)) 0x0 ++ [])).reverse) = _
    rw [List.append_nil, List.reverse_append, sendsOf_append,
      LcdI2c.sendsOf_sendEvs, hs, or128_mod]
    rfl


/-- Reading the device state and continuing applies the continuation to it. -/
theorem bindGetDev {σ α : Type} {f : σ → M σ α} {bus : Nat → Bool} {s : St σ} :
    mbind getDev f bus s = f s.dev bus s := rfl

/-- The empty command list returns the state unchanged. -/
theorem mlist_nil_run {σ : Type} {bus : Nat → Bool} {s : St σ} :
    mlist ([] : List (M σ Unit)) bus s = R.ok () s := rfl

/-- Sequencing a command list after a step that returns normally continues
from its final state. -/
theorem mlist_cons_ok {σ : Type} {m : M σ Unit} {ms : List (M σ Unit)}
    {bus : Nat → Bool} {s s1 : St σ} (h : m bus s = R.ok () s1) :
    mlist (m :: ms) bus s = mlist ms bus s1 := by
  simp [mlist, mseq, mbind, h]

/-- Recording an event prepends it to the trace. -/
theorem emit_run {σ : Type} {e : Ev} {dev : σ} {tr0 : List Ev} {nw0 : Nat}
    {bus : Nat → Bool} :
    emit e bus ⟨dev, tr0, nw0⟩ = R.ok () ⟨dev, e :: tr0, nw0⟩ := rfl

/-- Asserting the backlight latch writes one byte on the library variant. -/
theorem LcdI2c.expander_backlight_run {c r dm dc bl cl : Nat} {tr0 : List Ev}
    {nw0 : Nat} :
    (mbind getDev fun x => LcdI2c.expander_write x.backlight) busOk
        ⟨⟨true, c, r, dm, dc, bl, cl⟩, tr0, nw0⟩ =
      R.ok () ⟨⟨true, c, r, dm, dc, bl, cl⟩,
        Ev.wr LCD_ADDRESS [0, bl % 256] :: tr0, nw0 + 1⟩ := rfl

/-- Writing an initialization nibble on the library variant. -/
theorem LcdI2c.write4bits_nibble_run {v c r dm dc bl cl : Nat} {tr0 : List Ev}
    {nw0 : Nat} :
    (mbind getDev fun x => LcdI2c.write4bits ((v <<< 4) ||| x.backlight)) busOk
        ⟨⟨true, c, r, dm, dc, bl, cl⟩, tr0, nw0⟩ =
      R.ok () ⟨⟨true, c, r, dm, dc, bl, cl⟩,
        LcdI2c.w4bEvs bl ((v <<< 4) ||| bl) ++ tr0, nw0 + 3⟩ := rfl

/-- `Lcd::send` run with implicit arguments, for chained rewriting. -/
theorem LcdI2c.send_run_implicit {c r dm dc bl cl v m : Nat} {tr0 : List Ev}
    {nw0 : Nat} :
    LcdI2c.send v m busOk ⟨⟨true, c, r, dm, dc, bl, cl⟩, tr0, nw0⟩ =
      R.ok () ⟨⟨true, c, r, dm, dc, bl, cl⟩,
        LcdI2c.sendEvs bl v m ++ tr0, nw0 + 6⟩ := rfl

/-- Resetting `display_control` during `Lcd::init`. -/
theorem LcdI2c.modify_dc_run {c r dm dc bl cl : Nat} {tr0 : List Ev} {nw0 : Nat} :
    (modifyDev fun x : LcdI2c.Lcd =>
        { x with display_control := LCD_DISPLAYON ||| LCD_CURSOROFF ||| LCD_BLINKOFF })
        busOk ⟨⟨true, c, r, dm, dc, bl, cl⟩, tr0, nw0⟩ =
      R.ok () ⟨⟨true, c, r, dm, LCD_DISPLAYON ||| LCD_CURSOROFF ||| LCD_BLINKOFF, bl, cl⟩,
        tr0, nw0⟩ := rfl

/-- Resetting `display_mode` during `Lcd::init`. -/
theorem LcdI2c.modify_dm_run {c r dm dc bl cl : Nat} {tr0 : List Ev} {nw0 : Nat} :
    (modifyDev fun x : LcdI2c.Lcd =>
        { x with display_mode := LCD_ENTRYLEFT ||| LCD_ENTRYSHIFTDECREMENT })
        busOk ⟨⟨true, c, r, dm, dc, bl, cl⟩, tr0, nw0⟩ =
      R.ok () ⟨⟨true, c, r, LCD_ENTRYLEFT ||| LCD_ENTRYSHIFTDECREMENT, dc, bl, cl⟩,
        tr0, nw0⟩ := rfl

/-- Running `Lcd::display_on`: set the display-on bit, resend the control. -/
theorem LcdI2c.display_on_run {c r dm dc bl cl : Nat} {tr0 : List Ev} {nw0 : Nat} :
    LcdI2c.display_on busOk ⟨⟨true, c, r, dm, dc, bl, cl⟩, tr0, nw0⟩ =
      R.ok () ⟨⟨true, c, r, dm, dc ||| LCD_DISPLAYON, bl, cl⟩,
        LcdI2c.sendEvs bl (LCD_DISPLAYCONTROL ||| (dc ||| LCD_DISPLAYON)) 0x0 ++ tr0,
        nw0 + 6⟩ := rfl

/-- Running `Lcd::clear`: the clear command, a 2 ms wait, line reset. -/
theorem LcdI2c.clear_run {c r dm dc bl cl : Nat} {tr0 : List Ev} {nw0 : Nat} :
    LcdI2c.clear busOk ⟨⟨true, c, r, dm, dc, bl, cl⟩, tr0, nw0⟩ =
      R.ok () ⟨⟨true, c, r, dm, dc, bl, 0⟩,
        Ev.delayUs 2000 :: (LcdI2c.sendEvs bl LCD_CLEARDISPLAY 0x0 ++ tr0),
        nw0 + 6⟩ := rfl

/-- Resending the entry mode during `Lcd::init`. -/
theorem LcdI2c.entry_send_run {c r dm dc bl cl : Nat} {tr0 : List Ev} {nw0 : Nat} :
    (mbind getDev fun x => LcdI2c.send (LCD_ENTRYMODESET ||| x.display_mode) 0x0)
        busOk ⟨⟨true, c, r, dm, dc, bl, cl⟩, tr0, nw0⟩ =
      R.ok () ⟨⟨true, c, r, dm, dc, bl, cl⟩,
        LcdI2c.sendEvs bl (LCD_ENTRYMODESET ||| dm) 0x0 ++ tr0, nw0 + 6⟩ := rfl

/-- `SimpleLcd::send` run with implicit arguments, for chained rewriting. -/
theorem MainRs.send_run_implicit_main {bl dc dm v m : Nat} {tr0 : List Ev} {nw0 : Nat} :
    MainRs.send v m busOk ⟨⟨bl, dc, dm⟩, tr0, nw0⟩ =
      R.ok () ⟨⟨bl, dc, dm⟩, MainRs.sendEvs bl v m ++ tr0, nw0 + 6⟩ := rfl

/-- Asserting the backlight latch writes one byte on the main.rs variant. -/
theorem MainRs.expander_backlight_run_main {bl dc dm : Nat} {tr0 : List Ev} {nw0 : Nat} :
    (mbind getDev fun x => MainRs.expander_write x.backlight) busOk
        ⟨⟨bl, dc, dm⟩, tr0, nw0⟩ =
      R.ok () ⟨⟨bl, dc, dm⟩, Ev.wr LCD_ADDRESS [bl % 256] :: tr0, nw0 + 1⟩ := rfl

/-- Writing an initialization nibble on the main.rs variant. -/
theorem MainRs.write4bits_nibble_run_main {v bl dc dm : Nat} {tr0 : List Ev} {nw0 : Nat} :
    (mbind getDev fun x => MainRs.write4bits ((v <<< 4) ||| x.backlight)) busOk
        ⟨⟨bl, dc, dm⟩, tr0, nw0⟩ =
      R.ok () ⟨⟨bl, dc, dm⟩, MainRs.w4bEvs bl ((v <<< 4) ||| bl) ++ tr0, nw0 + 3⟩ := rfl

/-- Resetting `display_control` during `SimpleLcd::init`. -/
theorem MainRs.modify_dc_run_main {bl dc dm : Nat} {tr0 : List Ev} {nw0 : Nat} :
    (modifyDev fun x : MainRs.SimpleLcd =>
        { x with display_control := LCD_DISPLAYON ||| LCD_CURSOROFF ||| LCD_BLINKOFF })
        busOk ⟨⟨bl, dc, dm⟩, tr0, nw0⟩ =
      R.ok () ⟨⟨bl, LCD_DISPLAYON ||| LCD_CURSOROFF ||| LCD_BLINKOFF, dm⟩, tr0, nw0⟩ := rfl

/-- Resetting `display_mode` during `SimpleLcd::init`. -/
theorem MainRs.modify_dm_run_main {bl dc dm : Nat} {tr0 : List Ev} {nw0 : Nat} :
    (modifyDev fun x : MainRs.SimpleLcd =>
        { x with display_mode := LCD_ENTRYLEFT ||| LCD_ENTRYSHIFTDECREMENT })
        busOk ⟨⟨bl, dc, dm⟩, tr0, nw0⟩ =
      R.ok () ⟨⟨bl, dc, LCD_ENTRYLEFT ||| LCD_ENTRYSHIFTDECREMENT⟩, tr0, nw0⟩ := rfl

/-- Resending the display control during `SimpleLcd::init`. -/
theorem MainRs.dc_send_run_main {bl dc dm : Nat} {tr0 : List Ev} {nw0 : Nat} :
    (mbind getDev fun x => MainRs.send (LCD_DISPLAYCONTROL ||| x.display_control) 0x0)
        busOk ⟨⟨bl, dc, dm⟩, tr0, nw0⟩ =
      R.ok () ⟨⟨bl, dc, dm⟩, MainRs.sendEvs bl (LCD_DISPLAYCONTROL ||| dc) 0x0 ++ tr0,
        nw0 + 6⟩ := rfl

/-- Resending the entry mode during `SimpleLcd::init`. -/
theorem MainRs.entry_send_run_main {bl dc dm : Nat} {tr0 : List Ev} {nw0 : Nat} :
    (mbind getDev fun x => MainRs.send (LCD_ENTRYMODESET ||| x.display_mode) 0x0)
        busOk ⟨⟨bl, dc, dm⟩, tr0, nw0⟩ =
      R.ok () ⟨⟨bl, dc, dm⟩, MainRs.sendEvs bl (LCD_ENTRYMODESET ||| dm) 0x0 ++ tr0,
        nw0 + 6⟩ := rfl

/-- Running `SimpleLcd::clear`. -/
theorem MainRs.clear_run_main {bl dc dm : Nat} {tr0 : List Ev} {nw0 : Nat} :
    MainRs.clear busOk ⟨⟨bl, dc, dm⟩, tr0, nw0⟩ =
      R.ok () ⟨⟨bl, dc, dm⟩,
        Ev.delayUs 2000 :: (MainRs.sendEvs bl LCD_CLEARDISPLAY 0x0 ++ tr0),
        nw0 + 6⟩ := rfl

/-- Syntactic unfolding of `Lcd::init` into its command list, with the
function-set line bits resolved to `d`. -/
theorem LcdI2c.init_unfold {c dm dc bl cl : Nat} (r : Nat) {tr0 : List Ev} {nw0 : Nat}
    {d : Nat}
    (hdf : (if r > 1 then LCD_4BITMODE ||| LCD_2LINE ||| LCD_5X8DOTS
            else LCD_4BITMODE ||| LCD_1LINE ||| LCD_5X8DOTS) = d) :
    LcdI2c.init busOk ⟨⟨true, c, r, dm, dc, bl, cl⟩, tr0, nw0⟩ =
      mlist
        [ emit (Ev.delayUs 50000),
          mbind getDev fun x => LcdI2c.expander_write x.backlight,
          emit (Ev.delayUs 1000000),
          mbind getDev fun x => LcdI2c.write4bits ((0x03 <<< 4) ||| x.backlight),
          emit (Ev.delayUs 4500),
          mbind getDev fun x => LcdI2c.write4bits ((0x03 <<< 4) ||| x.backlight),
          emit (Ev.delayUs 4500),
          mbind getDev fun x => LcdI2c.write4bits ((0x03 <<< 4) ||| x.backlight),
          emit (Ev.delayUs 4500),
          mbind getDev fun x => LcdI2c.write4bits ((0x02 <<< 4) ||| x.backlight),
          LcdI2c.send (LCD_FUNCTIONSET ||| d) 0x0,
          modifyDev fun x : LcdI2c.Lcd =>
            { x with display_control := LCD_DISPLAYON ||| LCD_CURSOROFF ||| LCD_BLINKOFF },
          LcdI2c.display_on,
          LcdI2c.clear,
          modifyDev fun x : LcdI2c.Lcd =>
            { x with display_mode := LCD_ENTRYLEFT ||| LCD_ENTRYSHIFTDECREMENT },
          mbind getDev fun x => LcdI2c.send (LCD_ENTRYMODESET ||| x.display_mode) 0x0,
          LcdI2c.send LCD_RETURNHOME 0x0,
          emit (Ev.delayUs 2000) ]
        busOk ⟨⟨true, c, r, dm, dc, bl, cl⟩, tr0, nw0⟩ := by
  subst hdf
  simp only [LcdI2c.init]
  rewrite [bindGetDev]
  dsimp only

/-- Syntactic unfolding of `SimpleLcd::init` into its command list. -/
theorem MainRs.init_unfold_main {bl dc dm : Nat} {tr0 : List Ev} {nw0 : Nat} :
    MainRs.init busOk ⟨⟨bl, dc, dm⟩, tr0, nw0⟩ =
      mlist
        [ emit (Ev.delayUs 50000),
          mbind getDev fun x => MainRs.expander_write x.backlight,
          emit (Ev.delayUs 1000000),
          mbind getDev fun x => MainRs.write4bits ((0x03 <<< 4) ||| x.backlight),
          emit (Ev.delayUs 4500),
          mbind getDev fun x => MainRs.write4bits ((0x03 <<< 4) ||| x.backlight),
          emit (Ev.delayUs 4500),
          mbind getDev fun x => MainRs.write4bits ((0x03 <<< 4) ||| x.backlight),
          emit (Ev.delayUs 4500),
          mbind getDev fun x => MainRs.write4bits ((0x02 <<< 4) ||| x.backlight),
          MainRs.send (LCD_FUNCTIONSET ||| (LCD_4BITMODE ||| LCD_2LINE ||| LCD_5X8DOTS)) 0x0,
          modifyDev fun x : MainRs.SimpleLcd =>
            { x with display_control := LCD_DISPLAYON ||| LCD_CURSOROFF ||| LCD_BLINKOFF },
          mbind getDev fun x => MainRs.send (LCD_DISPLAYCONTROL ||| x.display_control) 0x0,
          MainRs.clear,
          modifyDev fun x : MainRs.SimpleLcd =>
            { x with display_mode := LCD_ENTRYLEFT ||| LCD_ENTRYSHIFTDECREMENT },
          mbind getDev fun x => MainRs.send (LCD_ENTRYMODESET ||| x.display_mode) 0x0,
          MainRs.send LCD_RETURNHOME 0x0,
          emit (Ev.delayUs 2000) ]
        busOk ⟨⟨bl, dc, dm⟩, tr0, nw0⟩ := by
  simp only [MainRs.init]

/-- Running `Lcd::init` on the all-success bus from a fresh driver with
rows = n + 2 (more than one row): the full power-on trace. -/
theorem LcdI2c.init_run_two (c n : Nat) :
    LcdI2c.init busOk ⟨⟨true, c, n + 2, 2, 4, 0, 0⟩, [], 0⟩ =
      R.ok () ⟨⟨true, c, n + 2, 2, 4, 0, 0⟩,
        ([          Ev.delayUs 50000,
          Ev.wr LCD_ADDRESS [0, 0],
          Ev.delayUs 1000000,
          Ev.wr LCD_ADDRESS [0, 48],
          Ev.wr LCD_ADDRESS [0, 52],
          Ev.delayUs 1,
          Ev.wr LCD_ADDRESS [0, 48],
          Ev.delayUs 50,
          Ev.delayUs 4500,
          Ev.wr LCD_ADDRESS [0, 48],
          Ev.wr LCD_ADDRESS [0, 52],
          Ev.delayUs 1,
          Ev.wr LCD_ADDRESS [0, 48],
          Ev.delayUs 50,
          Ev.delayUs 4500,
          Ev.wr LCD_ADDRESS [0, 48],
          Ev.wr LCD_ADDRESS [0, 52],
          Ev.delayUs 1,
          Ev.wr LCD_ADDRESS [0, 48],
          Ev.delayUs 50,
          Ev.delayUs 4500,
          Ev.wr LCD_ADDRESS [0, 32],
          Ev.wr LCD_ADDRESS [0, 36],
          Ev.delayUs 1,
          Ev.wr LCD_ADDRESS [0, 32],
          Ev.delayUs 50,
          Ev.sendByte 40 0,
          Ev.wr LCD_ADDRESS [0, 32],
          Ev.wr LCD_ADDRESS [0, 36],
          Ev.delayUs 1,
          Ev.wr LCD_ADDRESS [0, 32],
          Ev.delayUs 50,
          Ev.wr LCD_ADDRESS [0, 128],
          Ev.wr LCD_ADDRESS [0, 132],
          Ev.delayUs 1,
          Ev.wr LCD_ADDRESS [0, 128],
          Ev.delayUs 50,
          Ev.sendByte 12 0,
          Ev.wr LCD_ADDRESS [0, 0],
          Ev.wr LCD_ADDRESS [0, 4],
          Ev.delayUs 1,
          Ev.wr LCD_ADDRESS [0, 0],
          Ev.delayUs 50,
          Ev.wr LCD_ADDRESS [0, 192],
          Ev.wr LCD_ADDRESS [0, 196],
          Ev.delayUs 1,
          Ev.wr LCD_ADDRESS [0, 192],
          Ev.delayUs 50,
          Ev.sendByte 1 0,
          Ev.wr LCD_ADDRESS [0, 0],
          Ev.wr LCD_ADDRESS [0, 4],
          Ev.delayUs 1,
          Ev.wr LCD_ADDRESS [0, 0],
          Ev.delayUs 50,
          Ev.wr LCD_ADDRESS [0, 16],
          Ev.wr LCD_ADDRESS [0, 20],
          Ev.delayUs 1,
          Ev.wr LCD_ADDRESS [0, 16],
          Ev.delayUs 50,
          Ev.delayUs 2000,
          Ev.sendByte 6 0,
          Ev.wr LCD_ADDRESS [0, 0],
          Ev.wr LCD_ADDRESS [0, 4],
          Ev.delayUs 1,
          Ev.wr LCD_ADDRESS [0, 0],
          Ev.delayUs 50,
          Ev.wr LCD_ADDRESS [0, 96],
          Ev.wr LCD_ADDRESS [0, 100],
          Ev.delayUs 1,
          Ev.wr LCD_ADDRESS [0, 96],
          Ev.delayUs 50,
          Ev.sendByte 2 0,
          Ev.wr LCD_ADDRESS [0, 0],
          Ev.wr LCD_ADDRESS [0, 4],
          Ev.delayUs 1,
          Ev.wr LCD_ADDRESS [0, 0],
          Ev.delayUs 50,
          Ev.wr LCD_ADDRESS [0, 32],
          Ev.wr LCD_ADDRESS [0, 36],
          Ev.delayUs 1,
          Ev.wr LCD_ADDRESS [0, 32],
          Ev.delayUs 50,
          Ev.delayUs 2000]).reverse, 43⟩ := by
  rewrite [LcdI2c.init_unfold (n + 2) (by rw [if_pos (show n + 2 > 1 by omega)])]
  rewrite [mlist_cons_ok emit_run,
    mlist_cons_ok LcdI2c.expander_backlight_run,
    mlist_cons_ok emit_run,
    mlist_cons_ok LcdI2c.write4bits_nibble_run,
    mlist_cons_ok emit_run,
    mlist_cons_ok LcdI2c.write4bits_nibble_run,
    mlist_cons_ok emit_run,
    mlist_cons_ok LcdI2c.write4bits_nibble_run,
    mlist_cons_ok emit_run,
    mlist_cons_ok LcdI2c.write4bits_nibble_run,
    mlist_cons_ok LcdI2c.send_run_implicit,
    mlist_cons_ok LcdI2c.modify_dc_run,
    mlist_cons_ok LcdI2c.display_on_run,
    mlist_cons_ok LcdI2c.clear_run,
    mlist_cons_ok LcdI2c.modify_dm_run,
    mlist_cons_ok LcdI2c.entry_send_run,
    mlist_cons_ok LcdI2c.send_run_implicit,
    mlist_cons_ok emit_run,
    mlist_nil_run]
  simp only [R.ok.injEq, St.mk.injEq, LcdI2c.Lcd.mk.injEq, eq_self_iff_true,
    true_and, and_true]
  decide

/-- Running `Lcd::init` on the all-success bus from a fresh single-row
driver (rows = 1): the full power-on trace. -/
theorem LcdI2c.init_run_one (c : Nat) :
    LcdI2c.init busOk ⟨⟨true, c, 1, 2, 4, 0, 0⟩, [], 0⟩ =
      R.ok () ⟨⟨true, c, 1, 2, 4, 0, 0⟩,
        ([          Ev.delayUs 50000,
          Ev.wr LCD_ADDRESS [0, 0],
          Ev.delayUs 1000000,
          Ev.wr LCD_ADDRESS [0, 48],
          Ev.wr LCD_ADDRESS [0, 52],
          Ev.delayUs 1,
          Ev.wr LCD_ADDRESS [0, 48],
          Ev.delayUs 50,
          Ev.delayUs 4500,
          Ev.wr LCD_ADDRESS [0, 48],
          Ev.wr LCD_ADDRESS [0, 52],
          Ev.delayUs 1,
          Ev.wr LCD_ADDRESS [0, 48],
          Ev.delayUs 50,
          Ev.delayUs 4500,
          Ev.wr LCD_ADDRESS [0, 48],
          Ev.wr LCD_ADDRESS [0, 52],
          Ev.delayUs 1,
          Ev.wr LCD_ADDRESS [0, 48],
          Ev.delayUs 50,
          Ev.delayUs 4500,
          Ev.wr LCD_ADDRESS [0, 32],
          Ev.wr LCD_ADDRESS [0, 36],
          Ev.delayUs 1,
          Ev.wr LCD_ADDRESS [0, 32],
          Ev.delayUs 50,
          Ev.sendByte 32 0,
          Ev.wr LCD_ADDRESS [0, 32],
          Ev.wr LCD_ADDRESS [0, 36],
          Ev.delayUs 1,
          Ev.wr LCD_ADDRESS [0, 32],
          Ev.delayUs 50,
          Ev.wr LCD_ADDRESS [0, 0],
          Ev.wr LCD_ADDRESS [0, 4],
          Ev.delayUs 1,
          Ev.wr LCD_ADDRESS [0, 0],
          Ev.delayUs 50,
          Ev.sendByte 12 0,
          Ev.wr LCD_ADDRESS [0, 0],
          Ev.wr LCD_ADDRESS [0, 4],
          Ev.delayUs 1,
          Ev.wr LCD_ADDRESS [0, 0],
          Ev.delayUs 50,
          Ev.wr LCD_ADDRESS [0, 192],
          Ev.wr LCD_ADDRESS [0, 196],
          Ev.delayUs 1,
          Ev.wr LCD_ADDRESS [0, 192],
          Ev.delayUs 50,
          Ev.sendByte 1 0,
          Ev.wr LCD_ADDRESS [0, 0],
          Ev.wr LCD_ADDRESS [0, 4],
          Ev.delayUs 1,
          Ev.wr LCD_ADDRESS [0, 0],
          Ev.delayUs 50,
          Ev.wr LCD_ADDRESS [0, 16],
          Ev.wr LCD_ADDRESS [0, 20],
          Ev.delayUs 1,
          Ev.wr LCD_ADDRESS [0, 16],
          Ev.delayUs 50,
          Ev.delayUs 2000,
          Ev.sendByte 6 0,
          Ev.wr LCD_ADDRESS [0, 0],
          Ev.wr LCD_ADDRESS [0, 4],
          Ev.delayUs 1,
          Ev.wr LCD_ADDRESS [0, 0],
          Ev.delayUs 50,
          Ev.wr LCD_ADDRESS [0, 96],
          Ev.wr LCD_ADDRESS [0, 100],
          Ev.delayUs 1,
          Ev.wr LCD_ADDRESS [0, 96],
          Ev.delayUs 50,
          Ev.sendByte 2 0,
          Ev.wr LCD_ADDRESS [0, 0],
          Ev.wr LCD_ADDRESS [0, 4],
          Ev.delayUs 1,
          Ev.wr LCD_ADDRESS [0, 0],
          Ev.delayUs 50,
          Ev.wr LCD_ADDRESS [0, 32],
          Ev.wr LCD_ADDRESS [0, 36],
          Ev.delayUs 1,
          Ev.wr LCD_ADDRESS [0, 32],
          Ev.delayUs 50,
          Ev.delayUs 2000]).reverse, 43⟩ := by
  rewrite [LcdI2c.init_unfold 1 (by rw [if_neg (show ¬ ((1 : Nat) > 1) by omega)])]
  rewrite [mlist_cons_ok emit_run,
    mlist_cons_ok LcdI2c.expander_backlight_run,
    mlist_cons_ok emit_run,
    mlist_cons_ok LcdI2c.write4bits_nibble_run,
    mlist_cons_ok emit_run,
    mlist_cons_ok LcdI2c.write4bits_nibble_run,
    mlist_cons_ok emit_run,
    mlist_cons_ok LcdI2c.write4bits_nibble_run,
    mlist_cons_ok emit_run,
    mlist_cons_ok LcdI2c.write4bits_nibble_run,
    mlist_cons_ok LcdI2c.send_run_implicit,
    mlist_cons_ok LcdI2c.modify_dc_run,
    mlist_cons_ok LcdI2c.display_on_run,
    mlist_cons_ok LcdI2c.clear_run,
    mlist_cons_ok LcdI2c.modify_dm_run,
    mlist_cons_ok LcdI2c.entry_send_run,
    mlist_cons_ok LcdI2c.send_run_implicit,
    mlist_cons_ok emit_run,
    mlist_nil_run]
  simp only [R.ok.injEq, St.mk.injEq, LcdI2c.Lcd.mk.injEq, eq_self_iff_true,
    true_and, and_true]
  decide

/-- Running `SimpleLcd::init` on the all-success bus from a fresh driver:
the full power-on trace of the main.rs variant. -/
theorem MainRs.init_run :
    MainRs.init busOk ⟨⟨0, 4, 2⟩, [], 0⟩ =
      R.ok () ⟨⟨0, 4, 2⟩,
        ([          Ev.delayUs 50000,
          Ev.wr LCD_ADDRESS [0],
          Ev.delayUs 1000000,
          Ev.wr LCD_ADDRESS [48],
          Ev.wr LCD_ADDRESS [52],
          Ev.delayUs 1,
          Ev.wr LCD_ADDRESS [48],
          Ev.delayUs 50,
          Ev.delayUs 4500,
          Ev.wr LCD_ADDRESS [48],
          Ev.wr LCD_ADDRESS [52],
          Ev.delayUs 1,
          Ev.wr LCD_ADDRESS [48],
          Ev.delayUs 50,
          Ev.delayUs 4500,
          Ev.wr LCD_ADDRESS [48],
          Ev.wr LCD_ADDRESS [52],
          Ev.delayUs 1,
          Ev.wr LCD_ADDRESS [48],
          Ev.delayUs 50,
          Ev.delayUs 4500,
          Ev.wr LCD_ADDRESS [32],
          Ev.wr LCD_ADDRESS [36],
          Ev.delayUs 1,
          Ev.wr LCD_ADDRESS [32],
          Ev.delayUs 50,
          Ev.sendByte 40 0,
          Ev.wr LCD_ADDRESS [32],
          Ev.wr LCD_ADDRESS [36],
          Ev.delayUs 1,
          Ev.wr LCD_ADDRESS [32],
          Ev.delayUs 50,
          Ev.wr LCD_ADDRESS [128],
          Ev.wr LCD_ADDRESS [132],
          Ev.delayUs 1,
          Ev.wr LCD_ADDRESS [128],
          Ev.delayUs 50,
          Ev.sendByte 12 0,
          Ev.wr LCD_ADDRESS [0],
          Ev.wr LCD_ADDRESS [4],
          Ev.delayUs 1,
          Ev.wr LCD_ADDRESS [0],
          Ev.delayUs 50,
          Ev.wr LCD_ADDRESS [192],
          Ev.wr LCD_ADDRESS [196],
          Ev.delayUs 1,
          Ev.wr LCD_ADDRESS [192],
          Ev.delayUs 50,
          Ev.sendByte 1 0,
          Ev.wr LCD_ADDRESS [0],
          Ev.wr LCD_ADDRESS [4],
          Ev.delayUs 1,
          Ev.wr LCD_ADDRESS [0],
          Ev.delayUs 50,
          Ev.wr LCD_ADDRESS [16],
          Ev.wr LCD_ADDRESS [20],
          Ev.delayUs 1,
          Ev.wr LCD_ADDRESS [16],
          Ev.delayUs 50,
          Ev.delayUs 2000,
          Ev.sendByte 6 0,
          Ev.wr LCD_ADDRESS [0],
          Ev.wr LCD_ADDRESS [4],
          Ev.delayUs 1,
          Ev.wr LCD_ADDRESS [0],
          Ev.delayUs 50,
          Ev.wr LCD_ADDRESS [96],
          Ev.wr LCD_ADDRESS [100],
          Ev.delayUs 1,
          Ev.wr LCD_ADDRESS [96],
          Ev.delayUs 50,
          Ev.sendByte 2 0,
          Ev.wr LCD_ADDRESS [0],
          Ev.wr LCD_ADDRESS [4],
          Ev.delayUs 1,
          Ev.wr LCD_ADDRESS [0],
          Ev.delayUs 50,
          Ev.wr LCD_ADDRESS [32],
          Ev.wr LCD_ADDRESS [36],
          Ev.delayUs 1,
          Ev.wr LCD_ADDRESS [32],
          Ev.delayUs 50,
          Ev.delayUs 2000]).reverse, 43⟩ := by
  rewrite [MainRs.init_unfold_main]
  rewrite [mlist_cons_ok emit_run,
    mlist_cons_ok MainRs.expander_backlight_run_main,
    mlist_cons_ok emit_run,
    mlist_cons_ok MainRs.write4bits_nibble_run_main,
    mlist_cons_ok emit_run,
    mlist_cons_ok MainRs.write4bits_nibble_run_main,
    mlist_cons_ok emit_run,
    mlist_cons_ok MainRs.write4bits_nibble_run_main,
    mlist_cons_ok emit_run,
    mlist_cons_ok MainRs.write4bits_nibble_run_main,
    mlist_cons_ok MainRs.send_run_implicit_main,
    mlist_cons_ok MainRs.modify_dc_run_main,
    mlist_cons_ok MainRs.dc_send_run_main,
    mlist_cons_ok MainRs.clear_run_main,
    mlist_cons_ok MainRs.modify_dm_run_main,
    mlist_cons_ok MainRs.entry_send_run_main,
    mlist_cons_ok MainRs.send_run_implicit_main,
    mlist_cons_ok emit_run,
    mlist_nil_run]
  decide

/-! ## Claims -/

/-- Claim C1: every `send(value, mode)` of either driver variant performs
exactly two nibble transactions, high nibble first: the byte
`(value & 0xF0) | mode | backlight` is written and enable-pulsed, then
`((value << 4) & 0xF0) | mode | backlight` is written and enable-pulsed;
each enable pulse writes the byte with Enable set, waits 1 us (≥ 1 us),
writes it with Enable cleared, and waits 50 us (≥ 50 us). -/
theorem send_two_nibble_transactions :
    (∀ (c r dm dc bl cl v m nw0 : Nat),
      let hc := (((v % 256) &&& 0xf0) ||| (m % 256)) ||| bl
      let lc := ((((v % 256) <<< 4) &&& 0xf0) ||| (m % 256)) ||| bl
      LcdI2c.send v m busOk ⟨⟨true, c, r, dm, dc, bl, cl⟩, [], nw0⟩ =
        R.ok () ⟨⟨true, c, r, dm, dc, bl, cl⟩,
          ([Ev.sendByte (v % 256) (m % 256),
            Ev.wr LCD_ADDRESS [0, hc % 256],
            Ev.wr LCD_ADDRESS [0, ((hc ||| EN) ||| bl) % 256],
            Ev.delayUs 1,
            Ev.wr LCD_ADDRESS [0, ((hc &&& not8 EN) ||| bl) % 256],
            Ev.delayUs 50,
            Ev.wr LCD_ADDRESS [0, lc % 256],
            Ev.wr LCD_ADDRESS [0, ((lc ||| EN) ||| bl) % 256],
            Ev.delayUs 1,
            Ev.wr LCD_ADDRESS [0, ((lc &&& not8 EN) ||| bl) % 256],
            Ev.delayUs 50]).reverse, nw0 + 6⟩) ∧
    (∀ (bl dc dm v m nw0 : Nat),
      let hc := (((v % 256) &&& 0xf0) ||| (m % 256)) ||| bl
      let lc := ((((v % 256) <<< 4) &&& 0xf0) ||| (m % 256)) ||| bl
      MainRs.send v m busOk ⟨⟨bl, dc, dm⟩, [], nw0⟩ =
        R.ok () ⟨⟨bl, dc, dm⟩,
          ([Ev.sendByte (v % 256) (m % 256),
            Ev.wr LCD_ADDRESS [hc % 256],
            Ev.wr LCD_ADDRESS [((hc ||| EN) ||| bl) % 256],
            Ev.delayUs 1,
            Ev.wr LCD_ADDRESS [((hc &&& not8 EN) ||| bl) % 256],
            Ev.delayUs 50,
            Ev.wr LCD_ADDRESS [lc % 256],
            Ev.wr LCD_ADDRESS [((lc ||| EN) ||| bl) % 256],
            Ev.delayUs 1,
            Ev.wr LCD_ADDRESS [((lc &&& not8 EN) ||| bl) % 256],
            Ev.delayUs 50]).reverse, nw0 + 6⟩) := by
  constructor
  · intro c r dm dc bl cl v m nw0
    rfl
  · intro bl dc dm v m nw0
    rfl

/-- Claim C3: on either driver variant, `set_cursor(col, row)` with
`row >= rows` (the configured row count; the main.rs variant hard-codes two
rows) fails with the row-out-of-bounds error and performs no bus write — the
state, trace and bus-write count are returned unchanged, on every bus. -/
theorem set_cursor_row_out_of_bounds :
    (∀ (ok : Bool) (c r dm dc bl cl col row : Nat) (tr0 : List Ev) (nw0 : Nat)
        (bus : Nat → Bool), row ≥ r →
      LcdI2c.set_cursor col row bus ⟨⟨ok, c, r, dm, dc, bl, cl⟩, tr0, nw0⟩ =
        R.err "Row out of bounds" ⟨⟨ok, c, r, dm, dc, bl, cl⟩, tr0, nw0⟩) ∧
    (∀ (bl dc dm col row : Nat) (tr0 : List Ev) (nw0 : Nat) (bus : Nat → Bool),
        row ≥ 2 →
      MainRs.set_cursor col row bus ⟨⟨bl, dc, dm⟩, tr0, nw0⟩ =
        R.err "Row out of bounds" ⟨⟨bl, dc, dm⟩, tr0, nw0⟩) := by
  constructor
  · intro ok c r dm dc bl cl col row tr0 nw0 bus h
    simp [LcdI2c.set_cursor, mbind, getDev, throwErr, h]
  · intro bl dc dm col row tr0 nw0 bus h
    simp [MainRs.set_cursor, throwErr, h]

/-- Witness for C3 at a concrete input: `set_cursor(3, 5)` on a 16x2 library
driver and on the main.rs driver errors without a bus write. -/
theorem set_cursor_row_out_of_bounds_witness :
    LcdI2c.set_cursor 3 5 busOk ⟨⟨true, 16, 2, 2, 4, 0, 0⟩, [], 0⟩ =
      R.err "Row out of bounds" ⟨⟨true, 16, 2, 2, 4, 0, 0⟩, [], 0⟩ ∧
    MainRs.set_cursor 3 5 busOk ⟨⟨0, 4, 2⟩, [], 0⟩ =
      R.err "Row out of bounds" ⟨⟨0, 4, 2⟩, [], 0⟩ :=
  ⟨set_cursor_row_out_of_bounds.1 true 16 2 2 4 0 0 3 5 [] 0 busOk (by decide),
   set_cursor_row_out_of_bounds.2 0 4 2 3 5 [] 0 busOk (by decide)⟩

/-- Claim C4, counterexample: the claim states that for a configured row
count outside {1, 2, 4} every cursor operation fails with the
unsupported-geometry error, but with 3 configured rows `set_cursor(0, 5)`
fails with the row-out-of-bounds error instead (the `row >= rows` check
comes first in `Lcd::set_cursor`). -/
theorem unsupported_geometry_counterexample :
    LcdI2c.set_cursor 0 5 busOk ⟨⟨true, 16, 3, 2, 4, 0, 0⟩, [], 0⟩ =
      R.err "Row out of bounds" ⟨⟨true, 16, 3, 2, 4, 0, 0⟩, [], 0⟩ ∧
    "Row out of bounds" ≠ "Invalid number of rows" :=
  ⟨rfl, by decide⟩

/-- Claim C4, amended: cursor addressing uses the fixed row-offset table
`[0x00]` for one row, `[0x00, 0x40]` for two, `[0x00, 0x40, 0x14, 0x54]`
for four; a successful `set_cursor(col, row)` sends exactly the one command
byte `SETDDRAMADDR | (col + offset[row])` (u8 addition) and updates
`current_line = row`; for a configured row count outside {1, 2, 4},
`set_cursor` with `row < rows` fails with the unsupported-geometry error
(and with `row >= rows` it fails with the row-out-of-bounds error, per C3). -/
theorem cursor_row_offset_table :
    LcdI2c.rowOffsets 1 = some [0x00] ∧
    LcdI2c.rowOffsets 2 = some [0x00, 0x40] ∧
    LcdI2c.rowOffsets 4 = some [0x00, 0x40, 0x14, 0x54] ∧
    (∀ (c r dm dc bl cl col row : Nat) (offs : List Nat) (nw0 : Nat),
        LcdI2c.rowOffsets r = some offs → row < r →
      LcdI2c.set_cursor col row busOk ⟨⟨true, c, r, dm, dc, bl, cl⟩, [], nw0⟩ =
        R.ok () ⟨⟨true, c, r, dm, dc, bl, row⟩,
          LcdI2c.sendEvs bl (LCD_SETDDRAMADDR ||| ((col + offs.getD row 0) % 256)) 0x0,
          nw0 + 6⟩) ∧
    (∀ (c r dm dc bl cl col row : Nat) (nw0 : Nat) (bus : Nat → Bool),
        LcdI2c.rowOffsets r = none → row < r →
      LcdI2c.set_cursor col row bus ⟨⟨true, c, r, dm, dc, bl, cl⟩, [], nw0⟩ =
        R.err "Invalid number of rows" ⟨⟨true, c, r, dm, dc, bl, cl⟩, [], nw0⟩) := by
  refine ⟨rfl, rfl, rfl, ?_, ?_⟩
  · intro c r dm dc bl cl col row offs nw0 hoffs hrow
    have h := LcdI2c.set_cursor_run c r dm dc bl cl col row offs [] nw0 hoffs hrow
    simpa using h
  · intro c r dm dc bl cl col row nw0 bus hoffs hrow
    exact LcdI2c.set_cursor_run_unsupported c r dm dc bl cl col row [] nw0 bus hoffs hrow

/-- Witness for C4 at concrete inputs: `set_cursor(3, 1)` on a 16x2 display
sends DDRAM address `0x80 | (3 + 0x40)` and records line 1; on a 16x3
display `set_cursor(0, 2)` fails with the unsupported-geometry error. -/
theorem cursor_row_offset_table_witness :
    LcdI2c.set_cursor 3 1 busOk ⟨⟨true, 16, 2, 2, 4, 0, 0⟩, [], 0⟩ =
      R.ok () ⟨⟨true, 16, 2, 2, 4, 0, 1⟩,
        LcdI2c.sendEvs 0 (LCD_SETDDRAMADDR ||| ((3 + [0x00, 0x40].getD 1 0) % 256)) 0x0,
        0 + 6⟩ ∧
    LcdI2c.set_cursor 0 2 busOk ⟨⟨true, 16, 3, 2, 4, 0, 0⟩, [], 0⟩ =
      R.err "Invalid number of rows" ⟨⟨true, 16, 3, 2, 4, 0, 0⟩, [], 0⟩ :=
  ⟨cursor_row_offset_table.2.2.2.1 16 2 2 4 0 0 3 1 [0x00, 0x40] 0 (by rfl) (by decide),
   cursor_row_offset_table.2.2.2.2 16 3 2 4 0 0 0 2 0 busOk (by rfl) (by decide)⟩

/-- Claim C5: `next_line()` fails with the single-row error when `rows == 1`;
otherwise it resets `current_line` to 0 if `current_line >= rows` and
increments it by 1 otherwise, then calls `set_cursor(0, current_line)`; in
particular on a 2-row display with `current_line == 1` it sets
`current_line = 2` and the inner `set_cursor(0, 2)` fails with the
row-out-of-bounds error. -/
theorem next_line_wrap_behavior :
    (∀ (ok : Bool) (c dm dc bl cl : Nat) (tr0 : List Ev) (nw0 : Nat)
        (bus : Nat → Bool),
      LcdI2c.next_line bus ⟨⟨ok, c, 1, dm, dc, bl, cl⟩, tr0, nw0⟩ =
        R.err "Next line not supported on 1 row display"
          ⟨⟨ok, c, 1, dm, dc, bl, cl⟩, tr0, nw0⟩) ∧
    (∀ (ok : Bool) (c r dm dc bl cl : Nat) (tr0 : List Ev) (nw0 : Nat)
        (bus : Nat → Bool), r ≠ 1 → cl ≥ r →
      LcdI2c.next_line bus ⟨⟨ok, c, r, dm, dc, bl, cl⟩, tr0, nw0⟩ =
        LcdI2c.set_cursor 0 0 bus ⟨⟨ok, c, r, dm, dc, bl, 0⟩, tr0, nw0⟩) ∧
    (∀ (ok : Bool) (c r dm dc bl cl : Nat) (tr0 : List Ev) (nw0 : Nat)
        (bus : Nat → Bool), r ≠ 1 → cl < r → r ≤ 255 →
      LcdI2c.next_line bus ⟨⟨ok, c, r, dm, dc, bl, cl⟩, tr0, nw0⟩ =
        LcdI2c.set_cursor 0 (cl + 1) bus ⟨⟨ok, c, r, dm, dc, bl, cl + 1⟩, tr0, nw0⟩) ∧
    (LcdI2c.next_line busOk ⟨⟨true, 16, 2, 2, 4, 0, 1⟩, [], 0⟩ =
      R.err "Row out of bounds" ⟨⟨true, 16, 2, 2, 4, 0, 2⟩, [], 0⟩) := by
  refine ⟨?_, ?_, ?_, rfl⟩
  · intro ok c dm dc bl cl tr0 nw0 bus
    rfl
  · intro ok c r dm dc bl cl tr0 nw0 bus hr1 hcl
    simp only [LcdI2c.next_line, mbind, getDev, mseq, modifyDev]
    rw [if_neg hr1, if_pos hcl]
    rfl
  · intro ok c r dm dc bl cl tr0 nw0 bus hr1 hcl hr255
    simp only [LcdI2c.next_line, mbind, getDev, mseq, modifyDev]
    rw [if_neg hr1, if_neg (by omega)]
    show LcdI2c.set_cursor 0 ((cl + 1) % 256) bus
      ⟨⟨ok, c, r, dm, dc, bl, (cl + 1) % 256⟩, tr0, nw0⟩ = _
    rw [Nat.mod_eq_of_lt (by omega : cl + 1 < 256)]

/-- Witness for C5 at a concrete input: on a 4-row display with
`current_line = 0`, `next_line()` increments the line and behaves as
`set_cursor(0, 1)` from the updated state. -/
theorem next_line_wrap_behavior_witness :
    LcdI2c.next_line busOk ⟨⟨true, 20, 4, 2, 4, 0, 0⟩, [], 0⟩ =
      LcdI2c.set_cursor 0 (0 + 1) busOk ⟨⟨true, 20, 4, 2, 4, 0, 0 + 1⟩, [], 0⟩ :=
  next_line_wrap_behavior.2.2.1 true 20 4 2 4 0 0 [] 0 busOk
    (by decide) (by decide) (by decide)

/-- Claim C6: `create_custom_chars` with a slot above 7 fails with the
slot-out-of-bounds error without performing any bus write (state, trace and
write count unchanged, on every bus); for every slot <= 7 and 8-byte bitmap
it performs exactly 9 byte-level transfers in order: first the command
`SETCGRAMADDR | (slot << 3)`, then the 8 bitmap bytes as data transfers in
index order. -/
theorem create_custom_chars_nine_writes :
    (∀ (ok : Bool) (c r dm dc bl cl loc : Nat) (charmap : List Nat)
        (tr0 : List Ev) (nw0 : Nat) (bus : Nat → Bool), loc > 7 →
      LcdI2c.create_custom_chars loc charmap bus ⟨⟨ok, c, r, dm, dc, bl, cl⟩, tr0, nw0⟩ =
        R.err "Custom character location out of bounds"
          ⟨⟨ok, c, r, dm, dc, bl, cl⟩, tr0, nw0⟩) ∧
    (∀ (c r dm dc bl cl loc b0 b1 b2 b3 b4 b5 b6 b7 nw0 : Nat), loc ≤ 7 →
      ∃ st', LcdI2c.create_custom_chars loc [b0, b1, b2, b3, b4, b5, b6, b7] busOk
          ⟨⟨true, c, r, dm, dc, bl, cl⟩, [], nw0⟩ = R.ok () st' ∧
        sendsOf st'.traceOut =
          [(LCD_SETCGRAMADDR ||| (loc <<< 3), 0x0),
           (b0 % 256, RS), (b1 % 256, RS), (b2 % 256, RS), (b3 % 256, RS),
           (b4 % 256, RS), (b5 % 256, RS), (b6 % 256, RS), (b7 % 256, RS)]) := by
  constructor
  · intro ok c r dm dc bl cl loc charmap tr0 nw0 bus h
    simp [LcdI2c.create_custom_chars, throwErr, h]
  · intro c r dm dc bl cl loc b0 b1 b2 b3 b4 b5 b6 b7 nw0 hloc
    have hsh8 : loc <<< 3 = loc * 8 := by rw [Nat.shiftLeft_eq]
    have hshlt : loc <<< 3 < 256 := by omega
    have hlt : LCD_SETCGRAMADDR ||| (loc <<< 3) < 256 := by
      have h := Nat.or_lt_two_pow (x := LCD_SETCGRAMADDR) (y := loc <<< 3) (n := 8)
        (by norm_num [LCD_SETCGRAMADDR]) (by simpa using hshlt)
      simpa using h
    have hV : (LCD_SETCGRAMADDR ||| ((loc <<< 3) % 256)) % 256 =
        LCD_SETCGRAMADDR ||| (loc <<< 3) := by
      rw [Nat.mod_eq_of_lt hshlt, Nat.mod_eq_of_lt hlt]
    obtain ⟨tr', htr', hs⟩ :=
      LcdI2c.send_charmap_run [b0, b1, b2, b3, b4, b5, b6, b7] (List.range 8)
        c r dm dc bl cl
        (LcdI2c.sendEvs bl (LCD_SETCGRAMADDR ||| ((loc <<< 3) % 256)) 0x0 ++ []) (nw0 + 6)
        (by
          intro i hi
          have hi8 := List.mem_range.mp hi
          simp only [List.length_cons, List.length_nil]
          omega)
    refine ⟨⟨⟨true, c, r, dm, dc, bl, cl⟩,
      tr' ++ (LcdI2c.sendEvs bl (LCD_SETCGRAMADDR ||| ((loc <<< 3) % 256)) 0x0 ++ []),
      nw0 + 6 + 6 * (List.range 8).length⟩, ?_, ?_⟩
    · simp only [LcdI2c.create_custom_chars]
      rw [if_neg (by omega)]
      simp only [mseq, mbind]
      rw [LcdI2c.send_run]
      show LcdI2c.send_charmap _ (List.range 8) busOk _ = _
      exact htr'
    · show sendsOf ((tr' ++
        (LcdI2c.sendEvs bl (LCD_SETCGRAMADDR ||| ((loc <<< 3) % 256)) 0x0 ++ [])).reverse) = _
      rw [List.append_nil, List.reverse_append, sendsOf_append,
        LcdI2c.sendsOf_sendEvs, hs, hV]
      rfl

/-- Witness for C6 at concrete inputs: slot 8 errors without a bus write;
slot 7 with bitmap `[1,...,8]` performs the 9 transfers. -/
theorem create_custom_chars_nine_writes_witness :
    (LcdI2c.create_custom_chars 8 [1, 2, 3, 4, 5, 6, 7, 8] busOk
        ⟨⟨true, 16, 2, 2, 4, 0, 0⟩, [], 0⟩ =
      R.err "Custom character location out of bounds"
        ⟨⟨true, 16, 2, 2, 4, 0, 0⟩, [], 0⟩) ∧
    (∃ st', LcdI2c.create_custom_chars 7 [1, 2, 3, 4, 5, 6, 7, 8] busOk
        ⟨⟨true, 16, 2, 2, 4, 0, 0⟩, [], 0⟩ = R.ok () st' ∧
      sendsOf st'.traceOut =
        [(LCD_SETCGRAMADDR ||| (7 <<< 3), 0x0),
         (1 % 256, RS), (2 % 256, RS), (3 % 256, RS), (4 % 256, RS),
         (5 % 256, RS), (6 % 256, RS), (7 % 256, RS), (8 % 256, RS)]) :=
  ⟨create_custom_chars_nine_writes.1 true 16 2 2 4 0 0 8 [1, 2, 3, 4, 5, 6, 7, 8]
      [] 0 busOk (by decide),
   create_custom_chars_nine_writes.2 16 2 2 4 0 0 7 1 2 3 4 5 6 7 8 0 (by decide)⟩

/-- Claim C10: `create_custom_chars` takes the character map as a slice and
unconditionally reads indices 0 through 7: for every slot <= 7 and every
charmap with fewer than 8 elements, the call panics on an out-of-bounds
slice index — after the CGRAM address command and the in-bounds data bytes
have already been transferred — instead of returning an error. -/
theorem create_custom_chars_short_charmap_panics :
    ∀ (c r dm dc bl cl loc : Nat) (charmap : List Nat) (nw0 : Nat), loc ≤ 7 →
      charmap.length < 8 →
      ∃ st', LcdI2c.create_custom_chars loc charmap busOk
          ⟨⟨true, c, r, dm, dc, bl, cl⟩, [], nw0⟩ = R.panic "index out of bounds" st' ∧
        sendsOf st'.traceOut =
          (LCD_SETCGRAMADDR ||| (loc <<< 3), 0x0) ::
            charmap.map (fun b => (b % 256, RS)) := by
  intro c r dm dc bl cl loc charmap nw0 hloc hlen
  have hsh8 : loc <<< 3 = loc * 8 := by rw [Nat.shiftLeft_eq]
  have hshlt : loc <<< 3 < 256 := by omega
  have hlt : LCD_SETCGRAMADDR ||| (loc <<< 3) < 256 := by
    have h := Nat.or_lt_two_pow (x := LCD_SETCGRAMADDR) (y := loc <<< 3) (n := 8)
      (by norm_num [LCD_SETCGRAMADDR]) (by simpa using hshlt)
    simpa using h
  have hV : (LCD_SETCGRAMADDR ||| ((loc <<< 3) % 256)) % 256 =
      LCD_SETCGRAMADDR ||| (loc <<< 3) := by
    rw [Nat.mod_eq_of_lt hshlt, Nat.mod_eq_of_lt hlt]
  have hsplit : List.range 8 = List.range charmap.length ++ charmap.length ::
      ((List.range 8).drop (charmap.length + 1)) := by
    obtain ⟨l, hl⟩ : ∃ l, charmap.length = l := ⟨_, rfl⟩
    rw [hl] at hlen ⊢
    interval_cases l <;> rfl
  obtain ⟨tr', htr', hs⟩ :=
    LcdI2c.send_charmap_panic charmap (List.range charmap.length) charmap.length
      ((List.range 8).drop (charmap.length + 1)) c r dm dc bl cl
      (LcdI2c.sendEvs bl (LCD_SETCGRAMADDR ||| ((loc <<< 3) % 256)) 0x0 ++ []) (nw0 + 6)
      (fun i hi => List.mem_range.mp hi) (Nat.le_refl _)
  refine ⟨⟨⟨true, c, r, dm, dc, bl, cl⟩,
    tr' ++ (LcdI2c.sendEvs bl (LCD_SETCGRAMADDR ||| ((loc <<< 3) % 256)) 0x0 ++ []),
    nw0 + 6 + 6 * (List.range charmap.length).length⟩, ?_, ?_⟩
  · simp only [LcdI2c.create_custom_chars]
    rw [if_neg (by omega)]
    simp only [mseq, mbind]
    rw [LcdI2c.send_run]
    show LcdI2c.send_charmap charmap (List.range 8) busOk _ = _
    rw [hsplit]
    exact htr'
  · show sendsOf ((tr' ++
      (LcdI2c.sendEvs bl (LCD_SETCGRAMADDR ||| ((loc <<< 3) % 256)) 0x0 ++ [])).reverse) = _
    rw [List.append_nil, List.reverse_append, sendsOf_append,
      LcdI2c.sendsOf_sendEvs, hs, hV, range_map_getD]
    rfl

/-- Witness for C10 at a concrete input: slot 3 with a 3-byte charmap sends
the CGRAM address command and the 3 bytes, then panics. -/
theorem create_custom_chars_short_charmap_panics_witness :
    ∃ st', LcdI2c.create_custom_chars 3 [10, 20, 30] busOk
        ⟨⟨true, 16, 2, 2, 4, 0, 0⟩, [], 0⟩ = R.panic "index out of bounds" st' ∧
      sendsOf st'.traceOut =
        (LCD_SETCGRAMADDR ||| (3 <<< 3), 0x0) ::
          [10, 20, 30].map (fun b => (b % 256, RS)) :=
  create_custom_chars_short_charmap_panics 16 2 2 4 0 0 3 [10, 20, 30] 0
    (by decide) (by decide)

set_option maxRecDepth 4000 in
/-- Claim C7, counterexample: the claim says `print_long_str` places the
character at index `i` at column `i mod cols` and row `i div cols`, wrapping
the row to 0 whenever `i div cols >= rows`.  On a 1-column 2-row display
with a 258-character string, that formula puts index 257 at (0, 0) (since
`257 div 1 = 257 >= 2` wraps to 0), DDRAM command 0x80; but the code
truncates the index to u8 first (`i as u8`, giving 1), places the character
at row 1, and sends DDRAM command 0xC0. -/
theorem print_long_str_truncation_counterexample :
    (∃ st', LcdI2c.print_long_str (List.replicate 258 'a') busOk
        ⟨⟨true, 1, 2, 2, 4, 0, 0⟩, [], 0⟩ = R.ok () st' ∧
      (sendsOf st'.traceOut)[1 + 2 * 257]? = some (0xC0, 0x0)) ∧
    placedColRow 1 2 257 = (0, 1) ∧
    (0xC0 : Nat) ≠ 0x80 := by
  refine ⟨?_, by decide, by decide⟩
  obtain ⟨st', h1, h2⟩ :=
    LcdI2c.print_long_str_run 1 2 [0x00, 0x40] 2 4 0 0 (List.replicate 258 'a') 0
      (by rfl) (by decide)
  refine ⟨st', h1, ?_⟩
  rw [h2]
  decide

/-- Claim C7, amended: `print_long_str` starts at cursor (0, 0) and, for
every character index `i` (0-based), places that character at column
`(i mod 256) mod cols` and row `(i mod 256) div cols` — the enumeration
index is truncated to u8 before the division — except that when the
computed row reaches `rows` it wraps to 0 rather than failing; in
particular, on a 16-column 2-row display, a 35-character string's character
at index 32 is placed at (col 0, row 0), DDRAM command 0x80. -/
theorem print_long_str_wrap_placement :
    (∀ (cols rows : Nat) (offs : List Nat) (dm dc bl cl : Nat) (cs : List Char)
        (nw0 : Nat), LcdI2c.rowOffsets rows = some offs → 0 < cols →
      ∃ st', LcdI2c.print_long_str cs busOk
          ⟨⟨true, cols, rows, dm, dc, bl, cl⟩, [], nw0⟩ = R.ok () st' ∧
        sendsOf st'.traceOut =
          (LCD_SETDDRAMADDR ||| ((0 + offs.getD 0 0) % 256), 0x0) ::
            expectedLongStr cols rows offs cs 0) ∧
    placedColRow 16 2 32 = (0, 0) ∧
    (∃ st', LcdI2c.print_long_str (List.replicate 35 'a') busOk
        ⟨⟨true, 16, 2, 2, 4, 0, 0⟩, [], 0⟩ = R.ok () st' ∧
      (sendsOf st'.traceOut)[1 + 2 * 32]? = some (LCD_SETDDRAMADDR, 0x0)) := by
  refine ⟨?_, by decide, ?_⟩
  · intro cols rows offs dm dc bl cl cs nw0 hoffs hcols
    exact LcdI2c.print_long_str_run cols rows offs dm dc bl cl cs nw0 hoffs hcols
  · obtain ⟨st', h1, h2⟩ :=
      LcdI2c.print_long_str_run 16 2 [0x00, 0x40] 2 4 0 0 (List.replicate 35 'a') 0
        (by rfl) (by decide)
    refine ⟨st', h1, ?_⟩
    rw [h2]
    decide

/-- Witness for C7 at a concrete input: printing "hi" on a 16x2 display
performs the initial cursor command and then the expected per-character
transfers. -/
theorem print_long_str_wrap_placement_witness :
    ∃ st', LcdI2c.print_long_str ['h', 'i'] busOk
        ⟨⟨true, 16, 2, 2, 4, 0, 0⟩, [], 0⟩ = R.ok () st' ∧
      sendsOf st'.traceOut =
        (LCD_SETDDRAMADDR ||| ((0 + [0x00, 0x40].getD 0 0) % 256), 0x0) ::
          expectedLongStr 16 2 [0x00, 0x40] ['h', 'i'] 0 :=
  print_long_str_wrap_placement.1 16 2 [0x00, 0x40] 2 4 0 0 ['h', 'i'] 0
    (by rfl) (by decide)

/-- Claim C8, counterexample: the claim (following spec section 4.3) puts the
initial backlight-state bus write before the 50 ms wait, but `init()` first
waits 50 ms and only then writes the backlight state: the trace of `init` on
a fresh 16x2 library driver starts with the delay, not with the write. -/
theorem init_order_counterexample :
    ∃ st', LcdI2c.init busOk ⟨LcdI2c.Lcd.new true 16 2, [], 0⟩ = R.ok () st' ∧
      st'.traceOut.take 2 = [Ev.delayUs 50000, Ev.wr LCD_ADDRESS [0, 0]] ∧
      st'.traceOut.take 2 ≠ [Ev.wr LCD_ADDRESS [0, 0], Ev.delayUs 50000] := by
  have h0 := LcdI2c.init_run_two 16 0
  exact ⟨_, h0, by decide, by decide⟩

/-- Claim C8, amended: `init()` performs, in order: a 50 ms wait, the initial
backlight-state bus write, a 1000 ms wait, three writes of high nibble 0x3
each followed by a 4.5 ms wait, one write of high nibble 0x2, then the
commands FunctionSet (4-bit, 2-line if rows > 1 else 1-line, 5x8 font),
DisplayControl (display on, cursor off, blink off), ClearDisplay followed by
a 2 ms wait, EntryModeSet (entry left, shift decrement), and ReturnHome
followed by a 2 ms wait.  (Each nibble write and each command is transferred
through `write4bits`: the byte, then the enable pulse; the `SimpleLcd`
variant of main.rs performs the same sequence with one-byte payloads and a
fixed 2-line FunctionSet.) -/
theorem init_power_on_sequence :
    (∀ (c n : Nat),
      LcdI2c.init busOk ⟨LcdI2c.Lcd.new true c (n + 2), [], 0⟩ =
        R.ok () ⟨⟨true, c, n + 2, 2, 4, 0, 0⟩,
          ([          Ev.delayUs 50000,
          Ev.wr LCD_ADDRESS [0, 0],
          Ev.delayUs 1000000,
          Ev.wr LCD_ADDRESS [0, 48],
          Ev.wr LCD_ADDRESS [0, 52],
          Ev.delayUs 1,
          Ev.wr LCD_ADDRESS [0, 48],
          Ev.delayUs 50,
          Ev.delayUs 4500,
          Ev.wr LCD_ADDRESS [0, 48],
          Ev.wr LCD_ADDRESS [0, 52],
          Ev.delayUs 1,
          Ev.wr LCD_ADDRESS [0, 48],
          Ev.delayUs 50,
          Ev.delayUs 4500,
          Ev.wr LCD_ADDRESS [0, 48],
          Ev.wr LCD_ADDRESS [0, 52],
          Ev.delayUs 1,
          Ev.wr LCD_ADDRESS [0, 48],
          Ev.delayUs 50,
          Ev.delayUs 4500,
          Ev.wr LCD_ADDRESS [0, 32],
          Ev.wr LCD_ADDRESS [0, 36],
          Ev.delayUs 1,
          Ev.wr LCD_ADDRESS [0, 32],
          Ev.delayUs 50,
          Ev.sendByte 40 0,
          Ev.wr LCD_ADDRESS [0, 32],
          Ev.wr LCD_ADDRESS [0, 36],
          Ev.delayUs 1,
          Ev.wr LCD_ADDRESS [0, 32],
          Ev.delayUs 50,
          Ev.wr LCD_ADDRESS [0, 128],
          Ev.wr LCD_ADDRESS [0, 132],
          Ev.delayUs 1,
          Ev.wr LCD_ADDRESS [0, 128],
          Ev.delayUs 50,
          Ev.sendByte 12 0,
          Ev.wr LCD_ADDRESS [0, 0],
          Ev.wr LCD_ADDRESS [0, 4],
          Ev.delayUs 1,
          Ev.wr LCD_ADDRESS [0, 0],
          Ev.delayUs 50,
          Ev.wr LCD_ADDRESS [0, 192],
          Ev.wr LCD_ADDRESS [0, 196],
          Ev.delayUs 1,
          Ev.wr LCD_ADDRESS [0, 192],
          Ev.delayUs 50,
          Ev.sendByte 1 0,
          Ev.wr LCD_ADDRESS [0, 0],
          Ev.wr LCD_ADDRESS [0, 4],
          Ev.delayUs 1,
          Ev.wr LCD_ADDRESS [0, 0],
          Ev.delayUs 50,
          Ev.wr LCD_ADDRESS [0, 16],
          Ev.wr LCD_ADDRESS [0, 20],
          Ev.delayUs 1,
          Ev.wr LCD_ADDRESS [0, 16],
          Ev.delayUs 50,
          Ev.delayUs 2000,
          Ev.sendByte 6 0,
          Ev.wr LCD_ADDRESS [0, 0],
          Ev.wr LCD_ADDRESS [0, 4],
          Ev.delayUs 1,
          Ev.wr LCD_ADDRESS [0, 0],
          Ev.delayUs 50,
          Ev.wr LCD_ADDRESS [0, 96],
          Ev.wr LCD_ADDRESS [0, 100],
          Ev.delayUs 1,
          Ev.wr LCD_ADDRESS [0, 96],
          Ev.delayUs 50,
          Ev.sendByte 2 0,
          Ev.wr LCD_ADDRESS [0, 0],
          Ev.wr LCD_ADDRESS [0, 4],
          Ev.delayUs 1,
          Ev.wr LCD_ADDRESS [0, 0],
          Ev.delayUs 50,
          Ev.wr LCD_ADDRESS [0, 32],
          Ev.wr LCD_ADDRESS [0, 36],
          Ev.delayUs 1,
          Ev.wr LCD_ADDRESS [0, 32],
          Ev.delayUs 50,
          Ev.delayUs 2000]).reverse, 43⟩) ∧
    (∀ (c : Nat),
      LcdI2c.init busOk ⟨LcdI2c.Lcd.new true c 1, [], 0⟩ =
        R.ok () ⟨⟨true, c, 1, 2, 4, 0, 0⟩,
          ([          Ev.delayUs 50000,
          Ev.wr LCD_ADDRESS [0, 0],
          Ev.delayUs 1000000,
          Ev.wr LCD_ADDRESS [0, 48],
          Ev.wr LCD_ADDRESS [0, 52],
          Ev.delayUs 1,
          Ev.wr LCD_ADDRESS [0, 48],
          Ev.delayUs 50,
          Ev.delayUs 4500,
          Ev.wr LCD_ADDRESS [0, 48],
          Ev.wr LCD_ADDRESS [0, 52],
          Ev.delayUs 1,
          Ev.wr LCD_ADDRESS [0, 48],
          Ev.delayUs 50,
          Ev.delayUs 4500,
          Ev.wr LCD_ADDRESS [0, 48],
          Ev.wr LCD_ADDRESS [0, 52],
          Ev.delayUs 1,
          Ev.wr LCD_ADDRESS [0, 48],
          Ev.delayUs 50,
          Ev.delayUs 4500,
          Ev.wr LCD_ADDRESS [0, 32],
          Ev.wr LCD_ADDRESS [0, 36],
          Ev.delayUs 1,
          Ev.wr LCD_ADDRESS [0, 32],
          Ev.delayUs 50,
          Ev.sendByte 32 0,
          Ev.wr LCD_ADDRESS [0, 32],
          Ev.wr LCD_ADDRESS [0, 36],
          Ev.delayUs 1,
          Ev.wr LCD_ADDRESS [0, 32],
          Ev.delayUs 50,
          Ev.wr LCD_ADDRESS [0, 0],
          Ev.wr LCD_ADDRESS [0, 4],
          Ev.delayUs 1,
          Ev.wr LCD_ADDRESS [0, 0],
          Ev.delayUs 50,
          Ev.sendByte 12 0,
          Ev.wr LCD_ADDRESS [0, 0],
          Ev.wr LCD_ADDRESS [0, 4],
          Ev.delayUs 1,
          Ev.wr LCD_ADDRESS [0, 0],
          Ev.delayUs 50,
          Ev.wr LCD_ADDRESS [0, 192],
          Ev.wr LCD_ADDRESS [0, 196],
          Ev.delayUs 1,
          Ev.wr LCD_ADDRESS [0, 192],
          Ev.delayUs 50,
          Ev.sendByte 1 0,
          Ev.wr LCD_ADDRESS [0, 0],
          Ev.wr LCD_ADDRESS [0, 4],
          Ev.delayUs 1,
          Ev.wr LCD_ADDRESS [0, 0],
          Ev.delayUs 50,
          Ev.wr LCD_ADDRESS [0, 16],
          Ev.wr LCD_ADDRESS [0, 20],
          Ev.delayUs 1,
          Ev.wr LCD_ADDRESS [0, 16],
          Ev.delayUs 50,
          Ev.delayUs 2000,
          Ev.sendByte 6 0,
          Ev.wr LCD_ADDRESS [0, 0],
          Ev.wr LCD_ADDRESS [0, 4],
          Ev.delayUs 1,
          Ev.wr LCD_ADDRESS [0, 0],
          Ev.delayUs 50,
          Ev.wr LCD_ADDRESS [0, 96],
          Ev.wr LCD_ADDRESS [0, 100],
          Ev.delayUs 1,
          Ev.wr LCD_ADDRESS [0, 96],
          Ev.delayUs 50,
          Ev.sendByte 2 0,
          Ev.wr LCD_ADDRESS [0, 0],
          Ev.wr LCD_ADDRESS [0, 4],
          Ev.delayUs 1,
          Ev.wr LCD_ADDRESS [0, 0],
          Ev.delayUs 50,
          Ev.wr LCD_ADDRESS [0, 32],
          Ev.wr LCD_ADDRESS [0, 36],
          Ev.delayUs 1,
          Ev.wr LCD_ADDRESS [0, 32],
          Ev.delayUs 50,
          Ev.delayUs 2000]).reverse, 43⟩) ∧
    (MainRs.init busOk ⟨MainRs.SimpleLcd.new, [], 0⟩ =
      R.ok () ⟨⟨0, 4, 2⟩,
        ([          Ev.delayUs 50000,
          Ev.wr LCD_ADDRESS [0],
          Ev.delayUs 1000000,
          Ev.wr LCD_ADDRESS [48],
          Ev.wr LCD_ADDRESS [52],
          Ev.delayUs 1,
          Ev.wr LCD_ADDRESS [48],
          Ev.delayUs 50,
          Ev.delayUs 4500,
          Ev.wr LCD_ADDRESS [48],
          Ev.wr LCD_ADDRESS [52],
          Ev.delayUs 1,
          Ev.wr LCD_ADDRESS [48],
          Ev.delayUs 50,
          Ev.delayUs 4500,
          Ev.wr LCD_ADDRESS [48],
          Ev.wr LCD_ADDRESS [52],
          Ev.delayUs 1,
          Ev.wr LCD_ADDRESS [48],
          Ev.delayUs 50,
          Ev.delayUs 4500,
          Ev.wr LCD_ADDRESS [32],
          Ev.wr LCD_ADDRESS [36],
          Ev.delayUs 1,
          Ev.wr LCD_ADDRESS [32],
          Ev.delayUs 50,
          Ev.sendByte 40 0,
          Ev.wr LCD_ADDRESS [32],
          Ev.wr LCD_ADDRESS [36],
          Ev.delayUs 1,
          Ev.wr LCD_ADDRESS [32],
          Ev.delayUs 50,
          Ev.wr LCD_ADDRESS [128],
          Ev.wr LCD_ADDRESS [132],
          Ev.delayUs 1,
          Ev.wr LCD_ADDRESS [128],
          Ev.delayUs 50,
          Ev.sendByte 12 0,
          Ev.wr LCD_ADDRESS [0],
          Ev.wr LCD_ADDRESS [4],
          Ev.delayUs 1,
          Ev.wr LCD_ADDRESS [0],
          Ev.delayUs 50,
          Ev.wr LCD_ADDRESS [192],
          Ev.wr LCD_ADDRESS [196],
          Ev.delayUs 1,
          Ev.wr LCD_ADDRESS [192],
          Ev.delayUs 50,
          Ev.sendByte 1 0,
          Ev.wr LCD_ADDRESS [0],
          Ev.wr LCD_ADDRESS [4],
          Ev.delayUs 1,
          Ev.wr LCD_ADDRESS [0],
          Ev.delayUs 50,
          Ev.wr LCD_ADDRESS [16],
          Ev.wr LCD_ADDRESS [20],
          Ev.delayUs 1,
          Ev.wr LCD_ADDRESS [16],
          Ev.delayUs 50,
          Ev.delayUs 2000,
          Ev.sendByte 6 0,
          Ev.wr LCD_ADDRESS [0],
          Ev.wr LCD_ADDRESS [4],
          Ev.delayUs 1,
          Ev.wr LCD_ADDRESS [0],
          Ev.delayUs 50,
          Ev.wr LCD_ADDRESS [96],
          Ev.wr LCD_ADDRESS [100],
          Ev.delayUs 1,
          Ev.wr LCD_ADDRESS [96],
          Ev.delayUs 50,
          Ev.sendByte 2 0,
          Ev.wr LCD_ADDRESS [0],
          Ev.wr LCD_ADDRESS [4],
          Ev.delayUs 1,
          Ev.wr LCD_ADDRESS [0],
          Ev.delayUs 50,
          Ev.wr LCD_ADDRESS [32],
          Ev.wr LCD_ADDRESS [36],
          Ev.delayUs 1,
          Ev.wr LCD_ADDRESS [32],
          Ev.delayUs 50,
          Ev.delayUs 2000]).reverse, 43⟩) := by
  exact ⟨LcdI2c.init_run_two, LcdI2c.init_run_one, MainRs.init_run⟩

/-- A byte formed by OR-ing in a `u8` mask and reducing modulo 256 still
contains every bit of the mask. -/
theorem maskIn_lor_mod (b a : Nat) (hb : b < 256) : maskIn b ((a ||| b) % 256) := by
  unfold maskIn
  rw [show (256 : Nat) = 2 ^ 8 by norm_num]
  apply Nat.eq_of_testBit_eq
  intro i
  rcases Nat.lt_or_ge i 8 with h | h
  · simp only [Nat.testBit_or, Nat.testBit_mod_two_pow, h, decide_True, Bool.true_and]
    cases hbt : b.testBit i <;> cases hat : a.testBit i <;> simp [hbt, hat]
  · have hb8 : b.testBit i = false :=
      Nat.testBit_lt_two_pow (lt_of_lt_of_le hb (Nat.pow_le_pow_right (show 0 < 2 by norm_num) h))
    simp [Nat.testBit_or, Nat.testBit_mod_two_pow, Nat.not_lt.mpr h, hb8]

/-- Claim C9, counterexample: on the library variant with the backlight on,
the claim says every byte written to the expander includes the backlight
bit; but `Lcd::expander_write` sends the two-byte payload `[0, data]`, and
the leading 0x00 byte does not contain the backlight bit — e.g. the first
bus write of `send(0x01, COMMAND)` has payload `[0x00, 0x08]`. -/
theorem backlight_prefix_byte_counterexample :
    (runPayloads (LcdI2c.send 0x01 0x0) ⟨true, 16, 2, 2, 4, LCD_BACKLIGHT, 0⟩)[0]? =
      some [0x00, 0x08] ∧
    ¬ maskIn LCD_BACKLIGHT 0x00 := by
  exact ⟨by decide, by decide⟩

/-- Claim C9, amended: on the expander variants, the stored backlight bit is
OR'ed into every expander **data** byte — the last byte of every I2C payload
— during every `send` and every enable pulse.  On the main.rs variant every
payload byte contains it; on the library variant each payload additionally
carries a leading constant 0x00 byte, which does not carry the backlight
bit. -/
theorem backlight_in_every_data_byte :
    (∀ (c r dm dc bl cl v m : Nat), bl < 256 →
      ∀ p ∈ runPayloads (LcdI2c.send v m) ⟨true, c, r, dm, dc, bl, cl⟩,
        maskIn bl (p.getLastD 0)) ∧
    (∀ (c r dm dc bl cl d : Nat), bl < 256 →
      ∀ p ∈ runPayloads (LcdI2c.pulse_enable d) ⟨true, c, r, dm, dc, bl, cl⟩,
        maskIn bl (p.getLastD 0)) ∧
    (∀ (bl dc dm v m : Nat), bl < 256 →
      ∀ p ∈ runPayloads (MainRs.send v m) ⟨bl, dc, dm⟩, ∀ b ∈ p, maskIn bl b) ∧
    (∀ (bl dc dm d : Nat), bl < 256 →
      ∀ p ∈ runPayloads (MainRs.pulse_enable d) ⟨bl, dc, dm⟩, ∀ b ∈ p, maskIn bl b) := by
  refine ⟨?_, ?_, ?_, ?_⟩
  · intro c r dm dc bl cl v m hb p hp
    rw [show runPayloads (LcdI2c.send v m) ⟨true, c, r, dm, dc, bl, cl⟩ =
      [[0, ((((v % 256) &&& 0xf0) ||| (m % 256)) ||| bl) % 256],
       [0, ((((((v % 256) &&& 0xf0) ||| (m % 256)) ||| bl) ||| EN) ||| bl) % 256],
       [0, ((((((v % 256) &&& 0xf0) ||| (m % 256)) ||| bl) &&& not8 EN) ||| bl) % 256],
       [0, (((((v % 256) <<< 4) &&& 0xf0) ||| (m % 256)) ||| bl) % 256],
       [0, (((((((v % 256) <<< 4) &&& 0xf0) ||| (m % 256)) ||| bl) ||| EN) ||| bl) % 256],
       [0, (((((((v % 256) <<< 4) &&& 0xf0) ||| (m % 256)) ||| bl) &&& not8 EN) ||| bl) % 256]]
      from rfl] at hp
    simp only [List.mem_cons, List.not_mem_nil, or_false] at hp
    rcases hp with rfl | rfl | rfl | rfl | rfl | rfl <;>
      exact maskIn_lor_mod bl _ hb
  · intro c r dm dc bl cl d hb p hp
    rw [show runPayloads (LcdI2c.pulse_enable d) ⟨true, c, r, dm, dc, bl, cl⟩ =
      [[0, ((d ||| EN) ||| bl) % 256],
       [0, ((d &&& not8 EN) ||| bl) % 256]]
      from rfl] at hp
    simp only [List.mem_cons, List.not_mem_nil, or_false] at hp
    rcases hp with rfl | rfl <;> exact maskIn_lor_mod bl _ hb
  · intro bl dc dm v m hb p hp
    rw [show runPayloads (MainRs.send v m) ⟨bl, dc, dm⟩ =
      [[((((v % 256) &&& 0xf0) ||| (m % 256)) ||| bl) % 256],
       [((((((v % 256) &&& 0xf0) ||| (m % 256)) ||| bl) ||| EN) ||| bl) % 256],
       [((((((v % 256) &&& 0xf0) ||| (m % 256)) ||| bl) &&& not8 EN) ||| bl) % 256],
       [(((((v % 256) <<< 4) &&& 0xf0) ||| (m % 256)) ||| bl) % 256],
       [(((((((v % 256) <<< 4) &&& 0xf0) ||| (m % 256)) ||| bl) ||| EN) ||| bl) % 256],
       [(((((((v % 256) <<< 4) &&& 0xf0) ||| (m % 256)) ||| bl) &&& not8 EN) ||| bl) % 256]]
      from rfl] at hp
    simp only [List.mem_cons, List.not_mem_nil, or_false] at hp
    rcases hp with rfl | rfl | rfl | rfl | rfl | rfl <;>
      (intro b hbm
       simp only [List.mem_cons, List.not_mem_nil, or_false] at hbm
       rcases hbm with rfl
       exact maskIn_lor_mod bl _ hb)
  · intro bl dc dm d hb p hp
    rw [show runPayloads (MainRs.pulse_enable d) ⟨bl, dc, dm⟩ =
      [[((d ||| EN) ||| bl) % 256],
       [((d &&& not8 EN) ||| bl) % 256]]
      from rfl] at hp
    simp only [List.mem_cons, List.not_mem_nil, or_false] at hp
    rcases hp with rfl | rfl <;>
      (intro b hbm
       simp only [List.mem_cons, List.not_mem_nil, or_false] at hbm
       rcases hbm with rfl
       exact maskIn_lor_mod bl _ hb)

/-- Witness for C9 at a concrete input: with the backlight on, every data
byte of `send(0x28, COMMAND)` on the library variant carries bit 0x08. -/
theorem backlight_in_every_data_byte_witness :
    ∀ p ∈ runPayloads (LcdI2c.send 0x28 0x0) ⟨true, 16, 2, 2, 4, LCD_BACKLIGHT, 0⟩,
      maskIn LCD_BACKLIGHT (p.getLastD 0) :=
  backlight_in_every_data_byte.1 16 2 2 4 LCD_BACKLIGHT 0 0x28 0x0 (by decide)

/-- Claim C2 (code bug): on the library variant (`src/lcd_i2c_rs/src/lib.rs`),
a failing underlying I2C bus write does NOT come back as a recoverable error:
`Lcd::expander_write` unwraps the write result (`.expect("Failed to write to
expander")`) and aborts the process, observable through any operation, e.g.
`set_cursor(0, 0)`.  The `SimpleLcd` variant of `src/src/main.rs` does return
the recoverable error `"I2C write failed"` on the same failing bus. -/
theorem bus_failure_panics_in_library_variant :
    (∃ st, LcdI2c.expander_write 0x08 busFail ⟨⟨true, 16, 2, 2, 4, 0, 0⟩, [], 0⟩ =
      R.panic "Failed to write to expander" st) ∧
    (∃ st, LcdI2c.set_cursor 0 0 busFail ⟨⟨true, 16, 2, 2, 4, 0, 0⟩, [], 0⟩ =
      R.panic "Failed to write to expander" st) ∧
    (∃ st, MainRs.expander_write 0x08 busFail ⟨⟨0, 4, 2⟩, [], 0⟩ =
      R.err "I2C write failed" st) ∧
    (∃ st, MainRs.set_cursor 0 0 busFail ⟨⟨0, 4, 2⟩, [], 0⟩ =
      R.err "I2C write failed" st) := by
  refine ⟨⟨_, rfl⟩, ⟨_, rfl⟩, ⟨_, rfl⟩, ⟨_, rfl⟩⟩
